import Mathlib

/-!
Verification of the kob-query-resolver engine (TypeScript), shallowly embedded
in Lean 4.

The embedding follows the repository sources:
* `src/core/validation/validation-engine.ts` (class `ValidationEngine`)
* `src/core/equation-resolver.ts` (class `EquationResolver`)
* `src/core/computation/computation-engine.ts` (class `ComputationEngine`)
* `src/core/query-builder/advanced-query-resolver.ts` (class
  `AdvancedQueryResolver`, the revision that carries `customFunctions`,
  `createSandboxContext` and `addCustomFunction`)
* `src/core/translations.ts` (the static translation catalog)
* `src/errors/base-error.ts` (the error taxonomy)

JavaScript dynamic values are modelled by the tagged union `JsValue`; JS
numbers are modelled by `JsNum` (NaN, the two infinities, and finite values as
rationals: every finite double is a dyadic rational, and all numbers arising in
the theorems below are small decimals, so no rounding behaviour is lost).
Functions that can `throw` return `Except JsError _`.  Evaluation of the code
string handed to `new Function` is host behaviour; the resolver is therefore
parametrised by an abstract `Evaluator`, and concrete theorems instantiate it
with small evaluators whose value on the one expression they receive is the
documented host result.

Mutation is absent from the engine; to make that a theorem rather than a
modelling artifact, the operations that receive the caller record are written
in state-passing style (`Record → α × Record`): every primitive record access
returns the record it was given, composites thread the record through their
calls, and the frame theorem proves the final record equals the initial one.
-/

/-- Error classes of `src/errors/base-error.ts` plus the built-in `Error`
(`genericError`) and `EquationValidationError`. -/
inductive ErrorKind where
  | validationError
  | computationError
  | configurationError
  | equationValidationError
  | genericError
deriving DecidableEq, Repr

/-- A thrown JS error: its class and its `message`. -/
structure JsError where
  kind : ErrorKind
  message : String
deriving DecidableEq, Repr

/-- JS numbers: NaN, the infinities, and finite values as rationals. -/
inductive JsNum where
  | nan
  | posInf
  | negInf
  | finite (q : ℚ)
deriving DecidableEq, Repr

/-- JS dynamic values.  `undef` is `undefined`.  Objects are association
lists.  Function values are not representable inside `JsValue`; the engine
holds them in separate registries. -/
inductive JsValue where
  | undef
  | null
  | bool (b : Bool)
  | num (n : JsNum)
  | str (s : String)
  | arr (xs : List JsValue)
  | obj (fields : List (String × JsValue))
deriving Repr

/-- `n < q` for a JS number against a finite rational (rule parameters are
plain numbers).  Comparisons against NaN are false.  `Rat.blt` is used so that
the comparison reduces inside the kernel. -/
def JsNum.ltQ : JsNum → ℚ → Bool
  | .nan, _ => false
  | .posInf, _ => false
  | .negInf, _ => true
  | .finite x, q => Rat.blt x q

/-- `n > q`, NaN-false. -/
def JsNum.gtQ : JsNum → ℚ → Bool
  | .nan, _ => false
  | .posInf, _ => true
  | .negInf, _ => false
  | .finite x, q => Rat.blt q x

/-- `n ≤ q`, NaN-false. -/
def JsNum.leQ : JsNum → ℚ → Bool
  | .nan, _ => false
  | .posInf, _ => false
  | .negInf, _ => true
  | .finite x, q => !Rat.blt q x

/-- `n ≥ q`, NaN-false. -/
def JsNum.geQ : JsNum → ℚ → Bool
  | .nan, _ => false
  | .posInf, _ => true
  | .negInf, _ => false
  | .finite x, q => !Rat.blt x q

/-- The whitespace characters trimmed by JS `String.prototype.trim` and by
`ToNumber` on strings (the common ASCII subset plus NBSP). -/
def jsIsWhitespace (c : Char) : Bool :=
  [' ', '\t', '\n', '\r', '\x0b', '\x0c', '\u00a0'].contains c

/-- Trim `jsIsWhitespace` characters from both ends of a char list. -/
def jsTrimChars (cs : List Char) : List Char :=
  ((cs.dropWhile jsIsWhitespace).reverse.dropWhile jsIsWhitespace).reverse

/-- Digits of a char list interpreted in base 10 (helper for the numeric
grammar). -/
def digitsToNat (cs : List Char) : Nat :=
  cs.foldl (fun acc c => acc * 10 + (c.toNat - '0'.toNat)) 0

/-- Parse the exponent part `e|E [+|-] digits` of a decimal literal; returns
the signed exponent and requires the remainder to be empty. -/
def parseExponent (cs : List Char) : Option Int :=
  match cs with
  | [] => some 0
  | e :: rest =>
    if e == 'e' || e == 'E' then
      let (sign, rest') :=
        match rest with
        | '+' :: r => ((1 : Int), r)
        | '-' :: r => ((-1 : Int), r)
        | r => ((1 : Int), r)
      let (ds, rest'') := rest'.span Char.isDigit
      if ds.isEmpty || !rest''.isEmpty then none
      else some (sign * (digitsToNat ds : Int))
    else none

/-- Parse the JS `StrUnsignedDecimalLiteral` grammar:
`Infinity`, `digits [. digits] [exp]`, or `. digits [exp]`.
Returns `none` on failure. -/
def parseUnsignedDecimal (cs : List Char) : Option JsNum :=
  if cs == "Infinity".toList then some JsNum.posInf
  else
    let (intPart, rest) := cs.span Char.isDigit
    let (fracPart, rest') :=
      match rest with
      | '.' :: r => r.span Char.isDigit
      | _ => ([], rest)
    let consumedDot : Bool := match rest with | '.' :: _ => true | _ => false
    if intPart.isEmpty && fracPart.isEmpty then none
    else
      let afterNum := if consumedDot then rest' else rest
      match parseExponent afterNum with
      | none => none
      | some e =>
        -- mantissa / 10^(#frac digits), scaled by 10^e, via integer arithmetic
        let mantissa : Nat := digitsToNat (intPart ++ fracPart)
        let fl := fracPart.length
        some (JsNum.finite (
          if e ≥ 0 then mkRat (Int.ofNat (mantissa * 10 ^ e.toNat)) (10 ^ fl)
          else mkRat (Int.ofNat mantissa) (10 ^ (fl + (-e).toNat))))

/-- Digit value of a char in a non-decimal radix, if valid. -/
def radixDigit (radix : Nat) (c : Char) : Option Nat :=
  let ds := "0123456789abcdef".toList
  let i := ds.indexOf c.toLower
  if i < ds.length && i < radix then some i else none

/-- Parse nonempty digits in the given radix. -/
def parseRadixDigits (radix : Nat) (cs : List Char) : Option Nat :=
  match cs with
  | [] => none
  | _ =>
    cs.foldl
      (fun acc c =>
        match acc, radixDigit radix c with
        | some a, some d => some (a * radix + d)
        | _, _ => none)
      (some 0)

/-- JS `ToNumber` applied to a string (`Number(s)`): trim whitespace, the
empty string is `0`, otherwise the string must be exactly a numeric literal
(signed decimal, `Infinity`, or an unsigned `0x`/`0o`/`0b` literal); anything
else is NaN. -/
def jsStringToNumber (s : String) : JsNum :=
  let cs := jsTrimChars s.toList
  match cs with
  | [] => JsNum.finite 0
  | '0' :: m :: rest =>
    if m == 'x' || m == 'X' then
      match parseRadixDigits 16 rest with
      | some n => JsNum.finite (mkRat (Int.ofNat n) 1)
      | none => JsNum.nan
    else if m == 'o' || m == 'O' then
      match parseRadixDigits 8 rest with
      | some n => JsNum.finite (mkRat (Int.ofNat n) 1)
      | none => JsNum.nan
    else if m == 'b' || m == 'B' then
      match parseRadixDigits 2 rest with
      | some n => JsNum.finite (mkRat (Int.ofNat n) 1)
      | none => JsNum.nan
    else
      match parseUnsignedDecimal cs with
      | some n => n
      | none => JsNum.nan
  | '+' :: rest =>
    match parseUnsignedDecimal rest with
    | some n => n
    | none => JsNum.nan
  | '-' :: rest =>
    match parseUnsignedDecimal rest with
    | some (JsNum.finite q) => JsNum.finite (-q)
    | some JsNum.posInf => JsNum.negInf
    | some n => n
    | none => JsNum.nan
  | _ =>
    match parseUnsignedDecimal cs with
    | some n => n
    | none => JsNum.nan

/-- Largest `k` with `p ^ k ∣ n`, for `p ≥ 2` (fuel-bounded by `n`). -/
def powDividing (p : Nat) : Nat → Nat → Nat
  | 0, _ => 0
  | fuel + 1, n =>
    if n % p == 0 && n > 0 && n ≠ 1 then 1 + powDividing p fuel (n / p)
    else 0

/-- Decimal string of a natural number with at least `width` digits
(leading-zero padded). -/
def natToPaddedDigits (n width : Nat) : List Char :=
  let ds := (Nat.toDigits 10 n)
  let pad := width - ds.length
  List.replicate pad '0' ++ ds

/-- JS `String(n)` for a finite rational.  Finite doubles are dyadic, so the
denominator always divides a power of ten and the expansion below is the
shortest exact decimal, matching the JS representation for the magnitudes used
here (JS switches to exponent notation only beyond 1e21 / below 1e-6, which do
not arise). -/
def ratToJsString (q : ℚ) : String :=
  if q.den == 1 then toString q.num
  else
    let a := powDividing 2 q.den q.den
    let b := powDividing 5 q.den q.den
    let k := max a b
    if 10 ^ k % q.den == 0 then
      let scaled := q.num.natAbs * (10 ^ k / q.den)
      let ds := natToPaddedDigits scaled (k + 1)
      let intDigits := ds.length - k
      let sign := if q.num < 0 then "-" else ""
      sign ++ String.mk (ds.take intDigits) ++ "." ++ String.mk (ds.drop intDigits)
    else
      -- unreachable for values representable as binary doubles
      toString q.num ++ "/" ++ toString q.den

/-- JS `String(n)` for a number. -/
def jsNumToString (n : JsNum) : String :=
  match n with
  | .nan => "NaN"
  | .posInf => "Infinity"
  | .negInf => "-Infinity"
  | .finite q => ratToJsString q

mutual
/-- JS `String(v)` (`ToString`).  Arrays stringify via
`Array.prototype.join(",")`, plain objects as `[object Object]`. -/
def jsToString : JsValue → String
  | .undef => "undefined"
  | .null => "null"
  | .bool b => if b then "true" else "false"
  | .num n => jsNumToString n
  | .str s => s
  | .arr xs => jsArrJoin xs
  | .obj _ => "[object Object]"

/-- `Array.prototype.join(",")`: `null`/`undefined` elements become empty. -/
def jsArrJoin : List JsValue → String
  | [] => ""
  | [v] => jsJoinElem v
  | v :: rest => jsJoinElem v ++ "," ++ jsArrJoin rest

/-- One element under `join`: `null` and `undefined` print as empty. -/
def jsJoinElem : JsValue → String
  | .undef => ""
  | .null => ""
  | v => jsToString v
end

/-- JS `ToNumber` (`Number(v)`).  Arrays convert through their string form. -/
def jsToNumber : JsValue → JsNum
  | .undef => JsNum.nan
  | .null => JsNum.finite 0
  | .bool b => JsNum.finite (if b then 1 else 0)
  | .num n => n
  | .str s => jsStringToNumber s
  | .arr xs => jsStringToNumber (jsArrJoin xs)
  | .obj _ => JsNum.nan

/-- JS truthiness (`Boolean(v)`). -/
def jsTruthy : JsValue → Bool
  | .undef => false
  | .null => false
  | .bool b => b
  | .num .nan => false
  | .num (.finite q) => decide (q ≠ 0)
  | .num _ => true
  | .str s => !s.isEmpty
  | .arr _ => true
  | .obj _ => true

/-- JS strict equality `===`.  NaN is not equal to itself; arrays and objects
compare by reference, and the distinct array/object values appearing in this
development are always distinct fresh references, so they compare unequal. -/
def jsStrictEq : JsValue → JsValue → Bool
  | .undef, .undef => true
  | .null, .null => true
  | .bool a, .bool b => a == b
  | .num .nan, .num _ => false
  | .num _, .num .nan => false
  | .num a, .num b => a == b
  | .str a, .str b => a == b
  | _, _ => false

/-- SameValueZero, the equality used by `Array.prototype.includes`: like `===`
but NaN equals NaN. -/
def jsSameValueZero : JsValue → JsValue → Bool
  | .num .nan, .num .nan => true
  | a, b => jsStrictEq a b

/-! ## Association-list objects and maps

JS plain objects and `Map`s are modelled as association lists.  Assigning to
an existing key replaces its value in place (preserving the original key
position, as both JS objects and `Map.set` do); a new key is appended. -/

/-- Property read: first binding of the key, if any. -/
def objGet {α : Type} (m : List (String × α)) (k : String) : Option α :=
  match m.find? (fun p => p.1 == k) with
  | some p => some p.2
  | none => none

/-- Property write / `Map.set`: replace the binding in place (JS objects and
`Map`s hold each key at most once, so replacing the first binding is
replacing the binding) or append a new one. -/
def objSet {α : Type} : List (String × α) → String → α → List (String × α)
  | [], k, v => [(k, v)]
  | p :: tl, k, v => if p.1 == k then (k, v) :: tl else p :: objSet tl k v

/-- `new Map(configs.map(config => [config.id, config]))` — the shared
constructor line of `EquationResolver` and `AdvancedQueryResolver`: entries
are inserted in order, later entries with an equal id overwriting earlier
ones. -/
def buildCriteriaMap {α : Type} (idOf : α → String) (configs : List α) :
    List (String × α) :=
  configs.foldl (fun m c => objSet m (idOf c) c) []

/-- A caller data record (`IEquationData`): field name to value.  A missing
field reads as `undefined`. -/
def Record : Type := List (String × JsValue)

/-- `data[key]`: `undefined` when the field is absent. -/
def recordGet (r : Record) (k : String) : JsValue :=
  match objGet r k with
  | some v => v
  | none => JsValue.undef

/-- Validation rules (`SimpleValidationRule` in `src/models/types.ts`).  The
TS type is a closed union of tagged objects; at runtime a value outside the
union can still arrive, which `unknownRule` represents (its `tag` is the
runtime `type` string).  `custom` carries the user predicate, which may throw.
`exists` and `in` are Lean keywords, hence `existsRule`/`inRule`. -/
inductive SimpleValidationRule where
  | existsRule
  | inRule (values : List JsValue)
  | between (min max : ℚ)
  | includes (values : List JsValue)
  | number
  | array
  | string
  | boolean
  | gte (value : ℚ)
  | lte (value : ℚ)
  | gt (value : ℚ)
  | lt (value : ℚ)
  | eq (value : JsValue)
  | custom (validator : JsValue → Except JsError Bool)
  | unknownRule (tag : String)

/-- The runtime `rule.type` string. -/
def SimpleValidationRule.typeName : SimpleValidationRule → String
  | .existsRule => "exists"
  | .inRule _ => "in"
  | .between _ _ => "between"
  | .includes _ => "includes"
  | .number => "number"
  | .array => "array"
  | .string => "string"
  | .boolean => "boolean"
  | .gte _ => "gte"
  | .lte _ => "lte"
  | .gt _ => "gt"
  | .lt _ => "lt"
  | .eq _ => "eq"
  | .custom _ => "custom"
  | .unknownRule tag => tag

/-- `ICriteriaValidationConfig`: id, optional display name, optional rules,
optional derivation.  The derivation is caller code and may throw; it is
modelled as a pure function of the record (see the module comment). -/
structure ICriteriaValidationConfig where
  id : String
  name : Option String
  rules : Option (List SimpleValidationRule)
  computeValue : Option (Record → Except JsError JsValue)

/-- `IFieldValidationResult`: per-criterion outcome; `errors` is the JS error
object keyed by rule kind. -/
structure IFieldValidationResult where
  criteria : String
  success : Bool
  errors : Option (List (String × String))
deriving DecidableEq, Repr

/-- `IFieldValidationSummary`. -/
structure IFieldValidationSummary where
  successFields : List String
  failedFields : List (String × Option (List (String × String)))
  overallSuccess : Bool
deriving DecidableEq, Repr

/-! ## The translation catalog (`src/core/translations.ts`)

Literal braces inside the template strings are written with the `\x7b` /
`\x7d` character escapes. -/

/-- The `en` table of `DEFAULT_TRANSLATIONS`. -/
def translationsEn : List (String × String) :=
  [ ("errors.criteriaNotConfigured",
      "Criteria \x7b\x7bcriterion\x7d\x7d is not configured"),
    ("errors.computeValueFailed",
      "Failed to compute value for criteria \x7b\x7bcriterion\x7d\x7d"),
    ("errors.expression",
      "Error processing expression: \x7b\x7bmessage\x7d\x7d"),
    ("errors.criteriaExists",
      "Criteria \x7b\x7bcriterion\x7d\x7d must exist"),
    ("errors.criteriaIn",
      "Criteria \x7b\x7bcriterion\x7d\x7d must be one of \x7b\x7bvalues\x7d\x7d"),
    ("errors.criteriaIncludes",
      "Criteria \x7b\x7bcriterion\x7d\x7d must include all values \x7b\x7bvalues\x7d\x7d"),
    ("errors.criteriaArray",
      "Criteria \x7b\x7bcriterion\x7d\x7d must be an array"),
    ("errors.numberType",
      "Criteria \x7b\x7bcriterion\x7d\x7d must be a number"),
    ("errors.stringType",
      "Criteria \x7b\x7bcriterion\x7d\x7d must be a string"),
    ("errors.booleanType",
      "Criteria \x7b\x7bcriterion\x7d\x7d must be a boolean"),
    ("errors.betweenRange",
      "Criteria \x7b\x7bcriterion\x7d\x7d must be between \x7b\x7bmin\x7d\x7d and \x7b\x7bmax\x7d\x7d"),
    ("errors.greaterThanEqual",
      "Criteria \x7b\x7bcriterion\x7d\x7d must be greater than or equal to \x7b\x7bvalue\x7d\x7d"),
    ("errors.lessThanEqual",
      "Criteria \x7b\x7bcriterion\x7d\x7d must be less than or equal to \x7b\x7bvalue\x7d\x7d"),
    ("errors.greaterThan",
      "Criteria \x7b\x7bcriterion\x7d\x7d must be greater than \x7b\x7bvalue\x7d\x7d"),
    ("errors.lessThan",
      "Criteria \x7b\x7bcriterion\x7d\x7d must be less than \x7b\x7bvalue\x7d\x7d"),
    ("errors.equalTo",
      "Criteria \x7b\x7bcriterion\x7d\x7d must be equal to \x7b\x7bvalue\x7d\x7d"),
    ("errors.customValidationFailed",
      "Custom validation failed for criteria \x7b\x7bcriterion\x7d\x7d"),
    ("errors.logicalOperator.and", "AND condition failed"),
    ("errors.logicalOperator.or", "OR condition failed"),
    ("errors.logicalOperator.not", "NOT condition failed"),
    ("errors.emailFormat",
      "Criteria \x7b\x7bcriterion\x7d\x7d must be a valid email address"),
    ("errors.urlFormat",
      "Criteria \x7b\x7bcriterion\x7d\x7d must be a valid URL"),
    ("errors.dateFormat",
      "Criteria \x7b\x7bcriterion\x7d\x7d must be a valid date"),
    ("errors.minLength",
      "Criteria \x7b\x7bcriterion\x7d\x7d must have a minimum length of \x7b\x7bmin\x7d\x7d"),
    ("errors.maxLength",
      "Criteria \x7b\x7bcriterion\x7d\x7d must have a maximum length of \x7b\x7bmax\x7d\x7d"),
    ("errors.exactLength",
      "Criteria \x7b\x7bcriterion\x7d\x7d must have exactly \x7b\x7blength\x7d\x7d characters"),
    ("errors.dateRange",
      "Criteria \x7b\x7bcriterion\x7d\x7d must be between \x7b\x7bstart\x7d\x7d and \x7b\x7bend\x7d\x7d"),
    ("errors.arraySize",
      "Criteria \x7b\x7bcriterion\x7d\x7d must have between \x7b\x7bmin\x7d\x7d and \x7b\x7bmax\x7d\x7d items"),
    ("errors.patternMatch",
      "Criteria \x7b\x7bcriterion\x7d\x7d does not match the required pattern") ]

/-- The `pt` table. -/
def translationsPt : List (String × String) :=
  [ ("errors.criteriaNotConfigured",
      "Critério \x7b\x7bcriterion\x7d\x7d não configurado"),
    ("errors.computeValueFailed",
      "Erro ao computar valor para o critério \x7b\x7bcriterion\x7d\x7d"),
    ("errors.expression",
      "Erro ao processar expressão: \x7b\x7bmessage\x7d\x7d"),
    ("errors.criteriaExists",
      "Critério \x7b\x7bcriterion\x7d\x7d deve existir"),
    ("errors.criteriaIn",
      "Critério \x7b\x7bcriterion\x7d\x7d deve ser um dos valores: \x7b\x7bvalues\x7d\x7d"),
    ("errors.criteriaIncludes",
      "Critério \x7b\x7bcriterion\x7d\x7d deve incluir todos os valores \x7b\x7bvalues\x7d\x7d"),
    ("errors.criteriaArray",
      "Critério \x7b\x7bcriterion\x7d\x7d deve ser um array"),
    ("errors.numberType",
      "Critério \x7b\x7bcriterion\x7d\x7d deve ser um número"),
    ("errors.stringType",
      "Critério \x7b\x7bcriterion\x7d\x7d deve ser uma string"),
    ("errors.booleanType",
      "Critério \x7b\x7bcriterion\x7d\x7d deve ser um booleano"),
    ("errors.betweenRange",
      "Critério \x7b\x7bcriterion\x7d\x7d deve estar entre \x7b\x7bmin\x7d\x7d e \x7b\x7bmax\x7d\x7d"),
    ("errors.greaterThanEqual",
      "Critério \x7b\x7bcriterion\x7d\x7d deve ser maior ou igual a \x7b\x7bvalue\x7d\x7d"),
    ("errors.lessThanEqual",
      "Critério \x7b\x7bcriterion\x7d\x7d deve ser menor ou igual a \x7b\x7bvalue\x7d\x7d"),
    ("errors.greaterThan",
      "Critério \x7b\x7bcriterion\x7d\x7d deve ser maior que \x7b\x7bvalue\x7d\x7d"),
    ("errors.lessThan",
      "Critério \x7b\x7bcriterion\x7d\x7d deve ser menor que \x7b\x7bvalue\x7d\x7d"),
    ("errors.equalTo",
      "Critério \x7b\x7bcriterion\x7d\x7d deve ser igual a \x7b\x7bvalue\x7d\x7d"),
    ("errors.customValidationFailed",
      "Validação personalizada falhou para o critério \x7b\x7bcriterion\x7d\x7d"),
    ("errors.logicalOperator.and", "Condição AND falhou"),
    ("errors.logicalOperator.or", "Condição OR falhou"),
    ("errors.logicalOperator.not", "Condição NOT falhou"),
    ("errors.emailFormat",
      "Critério \x7b\x7bcriterion\x7d\x7d deve ser um endereço de email válido"),
    ("errors.urlFormat",
      "Critério \x7b\x7bcriterion\x7d\x7d deve ser uma URL válida"),
    ("errors.dateFormat",
      "Critério \x7b\x7bcriterion\x7d\x7d deve ser uma data válida"),
    ("errors.minLength",
      "Critério \x7b\x7bcriterion\x7d\x7d deve ter no mínimo \x7b\x7bmin\x7d\x7d caracteres"),
    ("errors.maxLength",
      "Critério \x7b\x7bcriterion\x7d\x7d deve ter no máximo \x7b\x7bmax\x7d\x7d caracteres"),
    ("errors.exactLength",
      "Critério \x7b\x7bcriterion\x7d\x7d deve ter exatamente \x7b\x7blength\x7d\x7d caracteres"),
    ("errors.dateRange",
      "Critério \x7b\x7bcriterion\x7d\x7d deve estar entre \x7b\x7bstart\x7d\x7d e \x7b\x7bend\x7d\x7d"),
    ("errors.arraySize",
      "Critério \x7b\x7bcriterion\x7d\x7d deve ter entre \x7b\x7bmin\x7d\x7d e \x7b\x7bmax\x7d\x7d itens"),
    ("errors.patternMatch",
      "Critério \x7b\x7bcriterion\x7d\x7d não corresponde ao padrão exigido") ]

/-- The `es` table. -/
def translationsEs : List (String × String) :=
  [ ("errors.criteriaNotConfigured",
      "Criterio \x7b\x7bcriterion\x7d\x7d no configurado"),
    ("errors.computeValueFailed",
      "Error al calcular el valor para el criterio \x7b\x7bcriterion\x7d\x7d"),
    ("errors.expression",
      "Error al procesar la expresión: \x7b\x7bmessage\x7d\x7d"),
    ("errors.criteriaExists",
      "El criterio \x7b\x7bcriterion\x7d\x7d debe existir"),
    ("errors.criteriaIn",
      "El criterio \x7b\x7bcriterion\x7d\x7d debe ser uno de los valores: \x7b\x7bvalues\x7d\x7d"),
    ("errors.criteriaIncludes",
      "El criterio \x7b\x7bcriterion\x7d\x7d debe incluir todos los valores \x7b\x7bvalues\x7d\x7d"),
    ("errors.criteriaArray",
      "El criterio \x7b\x7bcriterion\x7d\x7d debe ser un array"),
    ("errors.numberType",
      "El criterio \x7b\x7bcriterion\x7d\x7d debe ser un número"),
    ("errors.stringType",
      "El criterio \x7b\x7bcriterion\x7d\x7d debe ser una cadena de texto"),
    ("errors.booleanType",
      "El criterio \x7b\x7bcriterion\x7d\x7d debe ser un booleano"),
    ("errors.betweenRange",
      "El criterio \x7b\x7bcriterion\x7d\x7d debe estar entre \x7b\x7bmin\x7d\x7d y \x7b\x7bmax\x7d\x7d"),
    ("errors.greaterThanEqual",
      "El criterio \x7b\x7bcriterion\x7d\x7d debe ser mayor o igual a \x7b\x7bvalue\x7d\x7d"),
    ("errors.lessThanEqual",
      "El criterio \x7b\x7bcriterion\x7d\x7d debe ser menor o igual a \x7b\x7bvalue\x7d\x7d"),
    ("errors.greaterThan",
      "El criterio \x7b\x7bcriterion\x7d\x7d debe ser mayor que \x7b\x7bvalue\x7d\x7d"),
    ("errors.lessThan",
      "El criterio \x7b\x7bcriterion\x7d\x7d debe ser menor que \x7b\x7bvalue\x7d\x7d"),
    ("errors.equalTo",
      "El criterio \x7b\x7bcriterion\x7d\x7d debe ser igual a \x7b\x7bvalue\x7d\x7d"),
    ("errors.customValidationFailed",
      "La validación personalizada falló para el criterio \x7b\x7bcriterion\x7d\x7d"),
    ("errors.logicalOperator.and", "Condición AND fallida"),
    ("errors.logicalOperator.or", "Condición OR fallida"),
    ("errors.logicalOperator.not", "Condición NOT fallida"),
    ("errors.emailFormat",
      "El criterio \x7b\x7bcriterion\x7d\x7d debe ser una dirección de correo electrónico válida"),
    ("errors.urlFormat",
      "El criterio \x7b\x7bcriterion\x7d\x7d debe ser una URL válida"),
    ("errors.dateFormat",
      "El criterio \x7b\x7bcriterion\x7d\x7d debe ser una fecha válida"),
    ("errors.minLength",
      "El criterio \x7b\x7bcriterion\x7d\x7d debe tener al menos \x7b\x7bmin\x7d\x7d caracteres"),
    ("errors.maxLength",
      "El criterio \x7b\x7bcriterion\x7d\x7d debe tener como máximo \x7b\x7bmax\x7d\x7d caracteres"),
    ("errors.exactLength",
      "El criterio \x7b\x7bcriterion\x7d\x7d debe tener exactamente \x7b\x7blength\x7d\x7d caracteres"),
    ("errors.dateRange",
      "El criterio \x7b\x7bcriterion\x7d\x7d debe estar entre \x7b\x7bstart\x7d\x7d y \x7b\x7bend\x7d\x7d"),
    ("errors.arraySize",
      "El criterio \x7b\x7bcriterion\x7d\x7d debe tener entre \x7b\x7bmin\x7d\x7d y \x7b\x7bmax\x7d\x7d elementos"),
    ("errors.patternMatch",
      "El criterio \x7b\x7bcriterion\x7d\x7d no cumple con el patrón requerido") ]

/-- `DEFAULT_TRANSLATIONS`: language code to message table. -/
def DEFAULT_TRANSLATIONS : List (String × List (String × String)) :=
  [("en", translationsEn), ("pt", translationsPt), ("es", translationsEs)]

/-! ## String helpers shared by the engine -/

/-- Replace every occurrence of `pat` (nonempty) by `rep`, scanning left to
right without rescanning replacements — the behaviour of
`String.prototype.replace` with a global literal-text pattern. -/
def replaceAllChars (pat rep : List Char) : Nat → List Char → List Char
  | 0, cs => cs
  | _ + 1, [] => []
  | fuel + 1, c :: rest =>
    if !pat.isEmpty && pat.isPrefixOf (c :: rest) then
      rep ++ replaceAllChars pat rep fuel ((c :: rest).drop pat.length)
    else c :: replaceAllChars pat rep fuel rest

/-- String-level wrapper for `replaceAllChars`. -/
def replaceAllStr (s pat rep : String) : String :=
  String.mk (replaceAllChars pat.toList rep.toList s.toList.length s.toList)

/-- The private `translate(key, params)` of `AdvancedQueryResolver`:
`this.translations[key] || key`, then each `\x7b\x7bparamKey\x7d\x7d`
placeholder replaced by the stringified parameter (parameters are passed here
already stringified, mirroring `String(params[paramKey])` at the call).  No
catalog template is the empty string, so the option match agrees with the
JS `||` fallback. -/
def translateTemplate (translations : List (String × String)) (key : String)
    (params : List (String × String)) : String :=
  let template :=
    match objGet translations key with
    | some t => t
    | none => key
  params.foldl
    (fun acc p => replaceAllStr acc ("\x7b\x7b" ++ p.1 ++ "\x7d\x7d") p.2)
    template

/-- Minimal JSON string escaping (quote, backslash, newline, return, tab). -/
def jsonEscape : List Char → String
  | [] => ""
  | c :: rest =>
    (if c = '"' then "\\\""
     else if c = '\\' then "\\\\"
     else if c = '\n' then "\\n"
     else if c = '\r' then "\\r"
     else if c = '\t' then "\\t"
     else String.mk [c]) ++ jsonEscape rest

mutual
/-- `JSON.stringify` on the modelled values.  NaN and the infinities
serialize as `null`; `undefined` at top level yields the token `undefined`
once interpolated into a message (JS returns the value `undefined`). -/
def jsonStringify : JsValue → String
  | .undef => "undefined"
  | .null => "null"
  | .bool b => if b then "true" else "false"
  | .num (.finite q) => ratToJsString q
  | .num _ => "null"
  | .str s => "\"" ++ jsonEscape s.toList ++ "\""
  | .arr xs => "[" ++ jsonArrayBody xs ++ "]"
  | .obj fields => "\x7b" ++ jsonObjectBody fields ++ "\x7d"

/-- Array elements, comma-separated; `undefined` inside arrays is `null`. -/
def jsonArrayBody : List JsValue → String
  | [] => ""
  | [v] => jsonElem v
  | v :: rest => jsonElem v ++ "," ++ jsonArrayBody rest

/-- One array element. -/
def jsonElem : JsValue → String
  | .undef => "null"
  | v => jsonStringify v

/-- Object fields, comma-separated. -/
def jsonObjectBody : List (String × JsValue) → String
  | [] => ""
  | [p] => jsonField p
  | p :: rest => jsonField p ++ "," ++ jsonObjectBody rest

/-- One object field. -/
def jsonField : String × JsValue → String
  | (k, v) => "\"" ++ jsonEscape k.toList ++ "\":" ++ jsonStringify v
end

/-! ## Placeholder scanning

`AdvancedQueryResolver.validate` collects criterion ids with the global regex
`\x7b\x7b(\w+)\x7d\x7d`; `replaceCriterionWithValues` substitutes with the
global regex `\x7b\x7b([^\x7d]+)\x7d\x7d`.  Both are modelled as left-to-right
scans: a match needs two opening braces, a nonempty run of capture characters,
and two closing braces; on failure the scan advances one character, as a regex
engine does.  The scans are fuel-bounded by the string length. -/

/-- `\w` of JS regexes: ASCII letters, digits, underscore. -/
def isWordChar (c : Char) : Bool :=
  c.isAlphanum && c.toNat < 128 || c == '_'

/-- Scan for `\x7b\x7b(\w+)\x7d\x7d` matches, returning the captures in
order. -/
def scanWordPlaceholders : Nat → List Char → List String
  | 0, _ => []
  | _ + 1, [] => []
  | fuel + 1, '{' :: '{' :: rest =>
    match rest.span isWordChar with
    | (w, '}' :: '}' :: rest') =>
      if w.isEmpty then scanWordPlaceholders fuel ('{' :: rest)
      else String.mk w :: scanWordPlaceholders fuel rest'
    | _ => scanWordPlaceholders fuel ('{' :: rest)
  | fuel + 1, _ :: rest => scanWordPlaceholders fuel rest

/-- All `\x7b\x7b(\w+)\x7d\x7d` captures of a template. -/
def extractWordPlaceholders (s : String) : List String :=
  scanWordPlaceholders s.toList.length s.toList

/-- A JS `Set` built by repeated `add`: first occurrence kept, insertion
order preserved (`Array.from` then iterates in that order). -/
def uniqueList (l : List String) : List String :=
  l.foldl (fun acc x => if x ∈ acc then acc else acc ++ [x]) []

/-! ## ValidationEngine (`src/core/validation/validation-engine.ts`) -/

/-- `validateRule(value, rule)`: one branch per rule kind; the `default`
branch throws `ValidationError`, and a `custom` predicate may itself throw
(both surface as `.error`). -/
def ValidationEngine.validateRule (value : JsValue)
    (rule : SimpleValidationRule) : Except JsError Bool :=
  match rule with
  | .existsRule =>
    .ok (match value with | .undef => false | .null => false | _ => true)
  | .inRule values =>
    .ok (values.any (fun v => jsSameValueZero v value))
  | .between lo hi =>
    .ok (match value with | .num n => n.geQ lo && n.leQ hi | _ => false)
  | .includes values =>
    .ok (match value with
         | .arr xs => values.all (fun rv => xs.any (fun x => jsSameValueZero x rv))
         | _ => false)
  | .number =>
    .ok (match value with | .num .nan => false | .num _ => true | _ => false)
  | .array => .ok (match value with | .arr _ => true | _ => false)
  | .string => .ok (match value with | .str _ => true | _ => false)
  | .boolean => .ok (match value with | .bool _ => true | _ => false)
  | .gt q => .ok (match value with | .num n => n.gtQ q | _ => false)
  | .gte q => .ok (match value with | .num n => n.geQ q | _ => false)
  | .lt q => .ok (match value with | .num n => n.ltQ q | _ => false)
  | .lte q => .ok (match value with | .num n => n.leQ q | _ => false)
  | .eq v => .ok (jsStrictEq value v)
  | .custom validator => validator value
  | .unknownRule _ => .error ⟨ErrorKind.validationError, "Invalid rule type"⟩

/-- `getErrorKey(rule)`: catalog key per rule kind (`errors.unknown` for the
default branch). -/
def ValidationEngine.getErrorKey (rule : SimpleValidationRule) : String :=
  match rule with
  | .existsRule => "errors.criteriaExists"
  | .inRule _ => "errors.criteriaIn"
  | .between _ _ => "errors.betweenRange"
  | .includes _ => "errors.criteriaIncludes"
  | .number => "errors.numberType"
  | .array => "errors.criteriaArray"
  | .string => "errors.stringType"
  | .boolean => "errors.booleanType"
  | .gt _ => "errors.greaterThan"
  | .gte _ => "errors.greaterThanEqual"
  | .lt _ => "errors.lessThan"
  | .lte _ => "errors.lessThanEqual"
  | .eq _ => "errors.equalTo"
  | .custom _ => "errors.customValidationFailed"
  | .unknownRule _ => "errors.unknown"

/-- The per-rule loop of `ValidationEngine.validateCriteria`: each rule is
checked inside its own try/catch; a failed rule stores the catalog message
(or the fallback text), a thrown rule stores the error message.  Later rules
of the same kind overwrite earlier entries (object assignment). -/
def ValidationEngine.rulesLoop (value : JsValue)
    (translations : List (String × String)) :
    List SimpleValidationRule → List (String × String) →
    List (String × String)
  | [], errs => errs
  | r :: tl, errs =>
    let errs' :=
      match ValidationEngine.validateRule value r with
      | .ok true => errs
      | .ok false =>
        objSet errs r.typeName
          (match objGet translations (ValidationEngine.getErrorKey r) with
           | some t => t
           | none => "Validation failed for rule " ++ r.typeName)
      | .error e => objSet errs r.typeName e.message
    ValidationEngine.rulesLoop value translations tl errs'

/-- Raw value resolution shared by the engines:
`config.computeValue ? config.computeValue(data) : data[config.id]`.
The record is threaded through and returned (a pure read). -/
def resolveRawValueM (config : ICriteriaValidationConfig) (data : Record) :
    Except JsError JsValue × Record :=
  match config.computeValue with
  | some f => (f data, data)
  | none => (Except.ok (recordGet data config.id), data)

/-- `ValidationEngine.validateCriteria(data, config, translations)`: resolve
the value (outside any try/catch: a throwing derivation propagates), succeed
immediately when the rule list is absent or empty, otherwise run every rule.
State-passing: the final record is returned alongside the result. -/
def ValidationEngine.validateCriteriaM (config : ICriteriaValidationConfig)
    (translations : List (String × String)) (data : Record) :
    Except JsError IFieldValidationResult × Record :=
  let (raw, d1) := resolveRawValueM config data
  match raw with
  | .error e => (.error e, d1)
  | .ok value =>
    match config.rules with
    | none => (.ok ⟨config.id, true, none⟩, d1)
    | some rules =>
      if rules.isEmpty then (.ok ⟨config.id, true, none⟩, d1)
      else
        let errors := ValidationEngine.rulesLoop value translations rules []
        (.ok ⟨config.id, errors.isEmpty,
              if errors.isEmpty then none else some errors⟩, d1)

/-- Result projection of `validateCriteriaM`. -/
def ValidationEngine.validateCriteria (config : ICriteriaValidationConfig)
    (translations : List (String × String)) (data : Record) :
    Except JsError IFieldValidationResult :=
  (ValidationEngine.validateCriteriaM config translations data).1

/-! ## EquationResolver (`src/core/equation-resolver.ts`) -/

/-- A registered function value: JS `Function` taking positional arguments.
Caller-supplied functions may throw. -/
def JsFunction : Type := List JsValue → Except JsError JsValue

/-- The `EquationResolver` state: the criteria map, the selected translation
table, and the computation-engine function registry. -/
structure EquationResolver where
  criteriaConfigs : List (String × ICriteriaValidationConfig)
  translations : List (String × String)
  functions : List (String × JsFunction)

/-- The map/`validateCriteria` loop of `validateEquation`: configs in map
insertion order; an empty id throws `ConfigurationError` before validation,
and a throwing derivation propagates out of `validateCriteria`. -/
def EquationResolver.validateCriteriaListM
    (translations : List (String × String)) :
    List ICriteriaValidationConfig → Record →
    Except JsError (List IFieldValidationResult) × Record
  | [], data => (.ok [], data)
  | config :: tl, data =>
    if config.id = "" then
      (.error ⟨ErrorKind.configurationError, "Criteria ID is required"⟩, data)
    else
      let (r, d1) := ValidationEngine.validateCriteriaM config translations data
      match r with
      | .error e => (.error e, d1)
      | .ok res =>
        let (rs, d2) := EquationResolver.validateCriteriaListM translations tl d1
        match rs with
        | .error e => (.error e, d2)
        | .ok results => (.ok (res :: results), d2)

/-- `validateEquation(data)`: validate every configured criterion, then split
the results into `successFields` / `failedFields`. -/
def EquationResolver.validateEquationM (resolver : EquationResolver)
    (data : Record) : Except JsError IFieldValidationSummary × Record :=
  let (res, d1) :=
    EquationResolver.validateCriteriaListM resolver.translations
      (resolver.criteriaConfigs.map Prod.snd) data
  match res with
  | .error e => (.error e, d1)
  | .ok results =>
    let successFields :=
      (results.filter (fun r => r.success)).map (fun r => r.criteria)
    let failedFields :=
      (results.filter (fun r => !r.success)).map (fun r => (r.criteria, r.errors))
    (.ok ⟨successFields, failedFields, failedFields.isEmpty⟩, d1)

/-- Result projection of `validateEquationM`. -/
def EquationResolver.validateEquation (resolver : EquationResolver)
    (data : Record) : Except JsError IFieldValidationSummary :=
  (EquationResolver.validateEquationM resolver data).1

/-- `computeValue(criteriaId, data)`: `ConfigurationError` when the id is not
configured; the record field when there is no derivation; otherwise the
derivation result, a thrown derivation being rethrown as
`ConfigurationError("Failed to compute value for criteria " ++ id)`. -/
def EquationResolver.computeValueM (resolver : EquationResolver)
    (criteriaId : String) (data : Record) :
    Except JsError JsValue × Record :=
  match objGet resolver.criteriaConfigs criteriaId with
  | none =>
    (.error ⟨ErrorKind.configurationError,
             "Criteria " ++ criteriaId ++ " not found"⟩, data)
  | some config =>
    match config.computeValue with
    | none => (Except.ok (recordGet data criteriaId), data)
    | some f =>
      match f data with
      | .ok v => (.ok v, data)
      | .error _ =>
        (.error ⟨ErrorKind.configurationError,
                 "Failed to compute value for criteria " ++ criteriaId⟩, data)

/-- Result projection of `computeValueM`. -/
def EquationResolver.computeValue (resolver : EquationResolver)
    (criteriaId : String) (data : Record) : Except JsError JsValue :=
  (EquationResolver.computeValueM resolver criteriaId data).1

/-! ## JS arithmetic helpers used by the built-in functions

Signed zeros are not distinguished; none of the registered functions is
invoked by any theorem below, so these bodies document the built-ins without
carrying proof weight. -/

/-- JS `+` on numbers. -/
def JsNum.addN : JsNum → JsNum → JsNum
  | .nan, _ => .nan
  | _, .nan => .nan
  | .posInf, .negInf => .nan
  | .negInf, .posInf => .nan
  | .posInf, _ => .posInf
  | _, .posInf => .posInf
  | .negInf, _ => .negInf
  | _, .negInf => .negInf
  | .finite a, .finite b => .finite (a + b)

/-- JS `/` on numbers. -/
def JsNum.divN : JsNum → JsNum → JsNum
  | .nan, _ => .nan
  | _, .nan => .nan
  | .posInf, .posInf => .nan
  | .posInf, .negInf => .nan
  | .negInf, .posInf => .nan
  | .negInf, .negInf => .nan
  | .posInf, .finite b => if Rat.blt b 0 then .negInf else .posInf
  | .negInf, .finite b => if Rat.blt b 0 then .posInf else .negInf
  | .finite _, .posInf => .finite 0
  | .finite _, .negInf => .finite 0
  | .finite a, .finite b =>
    if b == 0 then
      if a == 0 then .nan else if Rat.blt a 0 then .negInf else .posInf
    else .finite (a / b)

/-- `n < m` on two JS numbers, NaN-false. -/
def JsNum.ltN : JsNum → JsNum → Bool
  | .nan, _ => false
  | _, .nan => false
  | .posInf, _ => false
  | _, .posInf => true
  | .negInf, .negInf => false
  | .negInf, _ => true
  | _, .negInf => false
  | .finite a, .finite b => Rat.blt a b

/-- ToPrimitive for `+` and relational operators: arrays and objects convert
through their string form, primitives stay. -/
def jsToPrimitive (v : JsValue) : JsValue :=
  match v with
  | .arr _ => .str (jsToString v)
  | .obj _ => .str (jsToString v)
  | v => v

/-- JS binary `+`: string concatenation when either primitive is a string,
numeric addition otherwise. -/
def jsAdd (a b : JsValue) : JsValue :=
  match jsToPrimitive a, jsToPrimitive b with
  | .str s, w => .str (s ++ jsToString w)
  | v, .str s => .str (jsToString v ++ s)
  | v, w => .num (JsNum.addN (jsToNumber v) (jsToNumber w))

/-- JS `<`: lexicographic on two strings, numeric otherwise (NaN-false). -/
def jsLooseLt (a b : JsValue) : Bool :=
  match jsToPrimitive a, jsToPrimitive b with
  | .str x, .str y => decide (x < y)
  | v, w => JsNum.ltN (jsToNumber v) (jsToNumber w)

/-- `Math.max(...args)`: NaN-propagating, `-Infinity` on no arguments. -/
def jsMaxNums (ns : List JsNum) : JsNum :=
  ns.foldl
    (fun acc n =>
      match acc, n with
      | .nan, _ => .nan
      | _, .nan => .nan
      | a, b => if JsNum.ltN a b then b else a)
    JsNum.negInf

/-- `Math.min(...args)`. -/
def jsMinNums (ns : List JsNum) : JsNum :=
  ns.foldl
    (fun acc n =>
      match acc, n with
      | .nan, _ => .nan
      | _, .nan => .nan
      | a, b => if JsNum.ltN b a then b else a)
    JsNum.posInf

/-- `Math.abs`. -/
def JsNum.absN : JsNum → JsNum
  | .nan => .nan
  | .posInf => .posInf
  | .negInf => .posInf
  | .finite q => .finite |q|

/-- `Math.floor`. -/
def JsNum.floorN : JsNum → JsNum
  | .finite q => .finite (mkRat (Rat.floor q) 1)
  | n => n

/-- `Math.ceil`. -/
def JsNum.ceilN : JsNum → JsNum
  | .finite q => .finite (mkRat (-(Rat.floor (-q))) 1)
  | n => n

/-- `Math.round`: half-up toward positive infinity. -/
def JsNum.roundN : JsNum → JsNum
  | .finite q => .finite (mkRat (Rat.floor (q + mkRat 1 2)) 1)
  | n => n

/-- First argument of a JS call (`undefined` when absent). -/
def argOrUndef (args : List JsValue) (i : Nat) : JsValue :=
  match args.drop i with
  | v :: _ => v
  | [] => (JsValue.undef)

/-- Error used for behaviour that lives in the host (`Date`, `RegExp`,
function-valued arguments): such calls are not exercised by any theorem. -/
def hostBehaviourError (what : String) : Except JsError JsValue :=
  .error ⟨ErrorKind.genericError, what ++ " is outside the value model"⟩

/-! ## ComputationEngine (`src/core/computation/computation-engine.ts`) -/

/-- `sum(...args)`: `args.reduce((a, b) => a + b, 0)`. -/
def ceSum : JsFunction := fun args =>
  .ok (args.foldl jsAdd (.num (.finite 0)))

/-- `avg(...args)`: `sum(...args) / args.length`. -/
def ceAvg : JsFunction := fun args =>
  .ok (.num (JsNum.divN (jsToNumber (args.foldl jsAdd (.num (.finite 0))))
                        (.finite (mkRat (Int.ofNat args.length) 1))))

/-- `count(arr)`: `arr.length`; strings also carry `length`, other defined
values read the property as `undefined`, and `null`/`undefined` receivers
throw. -/
def ceCount : JsFunction := fun args =>
  match argOrUndef args 0 with
  | .arr xs => .ok (.num (.finite (mkRat (Int.ofNat xs.length) 1)))
  | .str s => .ok (.num (.finite (mkRat (Int.ofNat s.length) 1)))
  | .undef => .error ⟨ErrorKind.genericError,
      "Cannot read properties of undefined"⟩
  | .null => .error ⟨ErrorKind.genericError,
      "Cannot read properties of null"⟩
  | _ => .ok (JsValue.undef)

/-- SameValueZero de-duplication preserving first occurrences (`new Set`). -/
def dedupSameValueZero (xs : List JsValue) : List JsValue :=
  xs.foldl
    (fun acc v => if acc.any (fun w => jsSameValueZero w v) then acc else acc ++ [v])
    []

/-- `isEmpty(value)` as written in the engine. -/
def ceIsEmpty : JsFunction := fun args =>
  .ok (.bool
    (match argOrUndef args 0 with
     | .undef => true
     | .null => true
     | .str s => (jsTrimChars s.toList).isEmpty
     | .arr xs => xs.isEmpty
     | .obj fields => fields.isEmpty
     | _ => false))

/-- A string-receiver method (`toLowerCase` and friends): a non-string
receiver throws. -/
def strMethod (f : String → String) : JsFunction := fun args =>
  match argOrUndef args 0 with
  | .str s => .ok (.str (f s))
  | _ => .error ⟨ErrorKind.genericError, "receiver is not a string"⟩

/-- The functions pre-registered by the `ComputationEngine` constructor. -/
def computationDefaultFunctions : List (String × JsFunction) :=
  [ ("sum", ceSum),
    ("avg", ceAvg),
    ("max", fun args => .ok (.num (jsMaxNums (args.map jsToNumber)))),
    ("min", fun args => .ok (.num (jsMinNums (args.map jsToNumber)))),
    ("abs", fun args => .ok (.num (JsNum.absN (jsToNumber (argOrUndef args 0))))),
    ("round", fun args => .ok (.num (JsNum.roundN (jsToNumber (argOrUndef args 0))))),
    ("ceil", fun args => .ok (.num (JsNum.ceilN (jsToNumber (argOrUndef args 0))))),
    ("floor", fun args => .ok (.num (JsNum.floorN (jsToNumber (argOrUndef args 0))))),
    ("count", ceCount),
    ("unique", fun args =>
      match argOrUndef args 0 with
      | .arr xs => .ok (.arr (dedupSameValueZero xs))
      | _ => hostBehaviourError "spreading a non-array"),
    ("filter", fun _ => hostBehaviourError "a function-valued argument"),
    ("isEmpty", ceIsEmpty),
    ("isNumber", fun args =>
      .ok (.bool (match argOrUndef args 0 with
                  | .num .nan => false | .num _ => true | _ => false))),
    ("isString", fun args =>
      .ok (.bool (match argOrUndef args 0 with | .str _ => true | _ => false))),
    ("isBoolean", fun args =>
      .ok (.bool (match argOrUndef args 0 with | .bool _ => true | _ => false))),
    ("isArray", fun args =>
      .ok (.bool (match argOrUndef args 0 with | .arr _ => true | _ => false))),
    ("concat", fun args => .ok (.str (jsArrJoin args)) ),
    ("toLowerCase", strMethod String.toLower),
    ("toUpperCase", strMethod String.toUpper),
    ("trim", strMethod (fun s => String.mk (jsTrimChars s.toList))),
    ("now", fun _ => hostBehaviourError "the host clock"),
    ("isToday", fun _ => hostBehaviourError "host Date behaviour"),
    ("daysBetween", fun _ => hostBehaviourError "host Date behaviour") ]

/-- `ComputationEngine.registerFunction(name, fn)` over a registry state:
`if (this.functions[name]) throw new Error(...)` — registered values are
functions and therefore truthy, so the guard is key presence; the check is an
exact, case-sensitive property lookup.  On success the function is assigned
into the registry. -/
def ComputationEngine.registerFunction (functions : List (String × JsFunction))
    (name : String) (fn : JsFunction) :
    Except JsError (List (String × JsFunction)) :=
  if (objGet functions name).isSome then
    .error ⟨ErrorKind.genericError, "Function " ++ name ++ " already exists"⟩
  else
    .ok (objSet functions name fn)

/-- Sandbox entries handed to the evaluator: data values and registry
functions share one namespace. -/
inductive SandboxValue where
  | val (v : JsValue)
  | fn (f : JsFunction)

/-- An object built by spreading: fold assignment over the listed entries
(later entries win, first-key position preserved). -/
def spreadMerge (entries : List (String × SandboxValue)) :
    List (String × SandboxValue) :=
  entries.foldl (fun m p => objSet m p.1 p.2) []

/-- The host evaluation of the code string given to `new Function`, applied
to the sandbox entries.  `Except.error` is a thrown evaluation error (its
`message`). -/
def Evaluator : Type := String → List (String × SandboxValue) → Except String JsValue

/-- `ComputationEngine.computeValue(expression) ` over `data`: the context is
`\x7b...this.functions, ...data\x7d` (data wins name collisions), evaluation
failures are rethrown as `Error("Error evaluating expression: " ++ msg)`.
State-passing in the record. -/
def ComputationEngine.computeValueM (ev : Evaluator)
    (functions : List (String × JsFunction)) (expression : String)
    (data : Record) : Except JsError JsValue × Record :=
  let context := spreadMerge
    (functions.map (fun p => (p.1, SandboxValue.fn p.2)) ++
     data.map (fun p => (p.1, SandboxValue.val p.2)))
  match ev expression context with
  | .ok v => (.ok v, data)
  | .error msg =>
    (.error ⟨ErrorKind.genericError, "Error evaluating expression: " ++ msg⟩, data)

/-! ## AdvancedQueryResolver (`src/core/query-builder/advanced-query-resolver.ts`)

The revision of the class that carries a `customFunctions` registry, a
sandbox context, and `addCustomFunction`. -/

/-- `a >= b` on JS numbers (NaN-false on either side). -/
def JsNum.geN : JsNum → JsNum → Bool
  | .nan, _ => false
  | _, .nan => false
  | a, b => !JsNum.ltN a b

/-- `a <= b` on JS numbers (NaN-false on either side). -/
def JsNum.leN : JsNum → JsNum → Bool
  | .nan, _ => false
  | _, .nan => false
  | a, b => !JsNum.ltN b a

/-- JS `>`. -/
def jsLooseGt (a b : JsValue) : Bool := jsLooseLt b a

/-- JS `>=`. -/
def jsLooseGe (a b : JsValue) : Bool :=
  match jsToPrimitive a, jsToPrimitive b with
  | .str x, .str y => decide (y ≤ x)
  | v, w => JsNum.geN (jsToNumber v) (jsToNumber w)

/-- JS `<=`. -/
def jsLooseLe (a b : JsValue) : Bool :=
  match jsToPrimitive a, jsToPrimitive b with
  | .str x, .str y => decide (x ≤ y)
  | v, w => JsNum.leN (jsToNumber v) (jsToNumber w)

/-- The `empty(value)` default function of the resolver. -/
def aqrEmptyCheck : JsValue → Bool
  | .undef => true
  | .null => true
  | .str s => s == "null" || s == "undefined" || (jsTrimChars s.toList).isEmpty
  | .arr xs => xs.isEmpty
  | .obj fields => fields.isEmpty
  | _ => false

/-- A two-string function (`startsWith`, `endsWith`, `includes`): non-string
arguments throw at the method call. -/
def twoStringFn (f : List Char → List Char → Bool) : JsFunction := fun args =>
  match argOrUndef args 0, argOrUndef args 1 with
  | .str s, .str t => .ok (.bool (f s.toList t.toList))
  | _, _ => .error ⟨ErrorKind.genericError, "receiver is not a string"⟩

/-- Substring search (for `String.prototype.includes`). -/
def charsContain : Nat → List Char → List Char → Bool
  | 0, _, _ => false
  | _ + 1, cs, pat => pat.isPrefixOf cs ||
    (match cs with
     | [] => false
     | _ :: rest => charsContain rest.length rest pat)

/-- `contains(arr, value)`: `arr.includes(value)` (SameValueZero); a
non-array receiver throws. -/
def aqrContainsFn : JsFunction := fun args =>
  match argOrUndef args 0 with
  | .arr xs => .ok (.bool (xs.any (fun x => jsSameValueZero x (argOrUndef args 1))))
  | _ => .error ⟨ErrorKind.genericError, "receiver is not an array"⟩

/-- `any(arr, predicate?)` without a predicate: `arr.some(Boolean)`.  A
predicate is a function value, outside the value model. -/
def aqrAnyFn : JsFunction := fun args =>
  match args with
  | [.arr xs] => .ok (.bool (xs.any jsTruthy))
  | _ => hostBehaviourError "a function-valued argument"

/-- `all(arr, predicate?)` without a predicate: `arr.every(Boolean)`. -/
def aqrAllFn : JsFunction := fun args =>
  match args with
  | [.arr xs] => .ok (.bool (xs.all jsTruthy))
  | _ => hostBehaviourError "a function-valued argument"

/-- The default `customFunctions` installed by the resolver constructor.
`any`/`all` with an explicit predicate, the `Date` helpers and `match` depend
on host function values, `Date` and `RegExp`; those calls error in the model
and are not exercised by any theorem. -/
def aqrDefaultCustomFunctions : List (String × JsFunction) :=
  [ ("empty", fun args => .ok (.bool (aqrEmptyCheck (argOrUndef args 0)))),
    ("notEmpty", fun args => .ok (.bool (!aqrEmptyCheck (argOrUndef args 0)))),
    ("isNull", fun args =>
      .ok (.bool (match argOrUndef args 0 with | .null => true | _ => false))),
    ("isUndefined", fun args =>
      .ok (.bool (match argOrUndef args 0 with | .undef => true | _ => false))),
    ("isDefined", fun args =>
      .ok (.bool (match argOrUndef args 0 with
                  | .undef => false | .null => false | _ => true))),
    ("max", fun args => .ok (.num (jsMaxNums (args.map jsToNumber)))),
    ("min", fun args => .ok (.num (jsMinNums (args.map jsToNumber)))),
    ("sum", ceSum),
    ("avg", ceAvg),
    ("abs", fun args => .ok (.num (JsNum.absN (jsToNumber (argOrUndef args 0))))),
    ("round", fun args => .ok (.num (JsNum.roundN (jsToNumber (argOrUndef args 0))))),
    ("ceil", fun args => .ok (.num (JsNum.ceilN (jsToNumber (argOrUndef args 0))))),
    ("floor", fun args => .ok (.num (JsNum.floorN (jsToNumber (argOrUndef args 0))))),
    ("startsWith", twoStringFn (fun s p => p.isPrefixOf s)),
    ("endsWith", twoStringFn (fun s p => p.reverse.isPrefixOf s.reverse)),
    ("includes", twoStringFn (fun s p => charsContain (s.length + 1) s p)),
    ("toLowerCase", strMethod String.toLower),
    ("toUpperCase", strMethod String.toUpper),
    ("trim", strMethod (fun s => String.mk (jsTrimChars s.toList))),
    ("contains", aqrContainsFn),
    ("any", aqrAnyFn),
    ("all", aqrAllFn),
    ("isArray", fun args =>
      .ok (.bool (match argOrUndef args 0 with | .arr _ => true | _ => false))),
    ("isString", fun args =>
      .ok (.bool (match argOrUndef args 0 with | .str _ => true | _ => false))),
    ("isNumber", fun args =>
      .ok (.bool (match argOrUndef args 0 with
                  | .num .nan => false | .num _ => true | _ => false))),
    ("isBoolean", fun args =>
      .ok (.bool (match argOrUndef args 0 with | .bool _ => true | _ => false))),
    ("isObject", fun args =>
      .ok (.bool (match argOrUndef args 0 with | .obj _ => true | _ => false))),
    ("gt", fun args => .ok (.bool (jsLooseGt (argOrUndef args 0) (argOrUndef args 1)))),
    ("gte", fun args => .ok (.bool (jsLooseGe (argOrUndef args 0) (argOrUndef args 1)))),
    ("lt", fun args => .ok (.bool (jsLooseLt (argOrUndef args 0) (argOrUndef args 1)))),
    ("lte", fun args => .ok (.bool (jsLooseLe (argOrUndef args 0) (argOrUndef args 1)))),
    ("eq", fun args => .ok (.bool (jsStrictEq (argOrUndef args 0) (argOrUndef args 1)))),
    ("neq", fun args => .ok (.bool (!jsStrictEq (argOrUndef args 0) (argOrUndef args 1)))),
    ("isToday", fun _ => hostBehaviourError "host Date behaviour"),
    ("isWeekend", fun _ => hostBehaviourError "host Date behaviour"),
    ("match", fun _ => hostBehaviourError "the host RegExp engine") ]

/-- The `AdvancedQueryResolver` state. -/
structure AdvancedQueryResolver where
  criteriaConfigs : List (String × ICriteriaValidationConfig)
  language : String
  translations : List (String × String)
  customFunctions : List (String × JsFunction)

/-- The constructor: `new Map(configs.map(c => [c.id, c]))`, the language
guard `language in DEFAULT_TRANSLATIONS ? language : "en"`, the selected
table, and the default `customFunctions`. -/
def AdvancedQueryResolver.make (configs : List ICriteriaValidationConfig)
    (language : String) : AdvancedQueryResolver :=
  let lang := if (objGet DEFAULT_TRANSLATIONS language).isSome then language else "en"
  { criteriaConfigs := buildCriteriaMap (fun c => c.id) configs
    language := lang
    translations :=
      match objGet DEFAULT_TRANSLATIONS lang with
      | some t => t
      | none => []
    customFunctions := aqrDefaultCustomFunctions }

/-- `getCriteriaLabel`: `config?.name || criteriaId` (an empty display name
is falsy and falls back to the id). -/
def AdvancedQueryResolver.getCriteriaLabel (aqr : AdvancedQueryResolver)
    (criteriaId : String) : String :=
  match objGet aqr.criteriaConfigs criteriaId with
  | some config =>
    match config.name with
    | some n => if n = "" then criteriaId else n
    | none => criteriaId
  | none => criteriaId

/-- The inline coercion at the head of `validateCriteria`: find the first
rule whose runtime `type` string is `number`, `string` or `boolean`; `number`
converts with `Number(value)` and replaces a NaN outcome by `null`; `string`
converts with `String(value)`; `boolean` with `Boolean(value)`.  Without such
a rule the value is untouched. -/
def AdvancedQueryResolver.coerceByTypeRule
    (rules : Option (List SimpleValidationRule)) (value : JsValue) : JsValue :=
  match rules with
  | none => value
  | some rs =>
    match rs.find? (fun r =>
        r.typeName == "number" || r.typeName == "string" || r.typeName == "boolean") with
    | none => value
    | some r =>
      if r.typeName == "number" then
        match jsToNumber value with
        | .nan => .null
        | n => .num n
      else if r.typeName == "string" then .str (jsToString value)
      else .bool (jsTruthy value)

/-- One case of the rule `switch` of `AdvancedQueryResolver.validateCriteria`
over the accumulated error object.  `.error` is a throw out of the rule body
(only the `custom` validator can throw), carrying the errors accumulated so
far for the enclosing catch.  The `switch` has no `default`: an unknown rule
kind is silently skipped. -/
def AdvancedQueryResolver.checkRule (translations : List (String × String))
    (label : String) (value : JsValue) (errs : List (String × String)) :
    SimpleValidationRule → Except (List (String × String)) (List (String × String))
  | .existsRule =>
    .ok (match value with
      | .undef => objSet errs "exists"
          (translateTemplate translations "errors.criteriaExists" [("criterion", label)])
      | .null => objSet errs "exists"
          (translateTemplate translations "errors.criteriaExists" [("criterion", label)])
      | _ => errs)
  | .inRule values =>
    .ok (if values.any (fun v => jsSameValueZero v value) then errs
      else objSet errs "in"
        (translateTemplate translations "errors.criteriaIn"
          [("criterion", label), ("values", jsonStringify (.arr values))]))
  | .includes values =>
    .ok (match value with
      | .arr xs =>
        if values.all (fun rv => xs.any (fun x => jsSameValueZero x rv)) then errs
        else objSet errs "includes"
          (translateTemplate translations "errors.criteriaIncludes"
            [("criterion", label), ("values", jsonStringify (.arr values))])
      | _ => objSet errs "includes"
          (translateTemplate translations "errors.criteriaArray" [("criterion", label)]))
  | .between lo hi =>
    .ok (if (match value with
             | .num n => n.ltQ lo || n.gtQ hi
             | _ => true) then
      objSet errs "between"
        (translateTemplate translations "errors.betweenRange"
          [("criterion", label), ("min", ratToJsString lo), ("max", ratToJsString hi)])
      else errs)
  | .number =>
    .ok (match value with
      | .num _ => errs
      | _ => objSet errs "number"
          (translateTemplate translations "errors.numberType" [("criterion", label)]))
  | .string =>
    .ok (match value with
      | .str _ => errs
      | _ => objSet errs "string"
          (translateTemplate translations "errors.stringType" [("criterion", label)]))
  | .boolean =>
    .ok (match value with
      | .bool _ => errs
      | _ => objSet errs "boolean"
          (translateTemplate translations "errors.booleanType" [("criterion", label)]))
  | .gte q =>
    .ok (if (match value with | .num n => n.ltQ q | _ => true) then
      objSet errs "gte"
        (translateTemplate translations "errors.greaterThanEqual"
          [("criterion", label), ("value", ratToJsString q)])
      else errs)
  | .lte q =>
    .ok (if (match value with | .num n => n.gtQ q | _ => true) then
      objSet errs "lte"
        (translateTemplate translations "errors.lessThanEqual"
          [("criterion", label), ("value", ratToJsString q)])
      else errs)
  | .gt q =>
    .ok (if (match value with | .num n => n.leQ q | _ => true) then
      objSet errs "gt"
        (translateTemplate translations "errors.greaterThan"
          [("criterion", label), ("value", ratToJsString q)])
      else errs)
  | .lt q =>
    .ok (if (match value with | .num n => n.geQ q | _ => true) then
      objSet errs "lt"
        (translateTemplate translations "errors.lessThan"
          [("criterion", label), ("value", ratToJsString q)])
      else errs)
  | .eq v =>
    .ok (if jsStrictEq value v then errs
      else objSet errs "eq"
        (translateTemplate translations "errors.equalTo"
          [("criterion", label), ("value", jsToString v)]))
  | .array =>
    .ok (match value with
      | .arr _ => errs
      | _ => objSet errs "custom"
          (translateTemplate translations "errors.customValidationFailed"
            [("criterion", label)]))
  | .custom validator =>
    match validator value with
    | .ok true => .ok errs
    | .ok false => .ok (objSet errs "custom"
        (translateTemplate translations "errors.customValidationFailed"
          [("criterion", label)]))
    | .error _ => .error errs
  | .unknownRule _ => .ok errs

/-- The `for (const rule of config.rules)` loop: a thrown rule aborts the
loop with the errors accumulated so far. -/
def AdvancedQueryResolver.rulesLoop (translations : List (String × String))
    (label : String) (value : JsValue) :
    List SimpleValidationRule → List (String × String) →
    List (String × String) × Bool
  | [], errs => (errs, false)
  | r :: tl, errs =>
    match AdvancedQueryResolver.checkRule translations label value errs r with
    | .ok errs' => AdvancedQueryResolver.rulesLoop translations label value tl errs'
    | .error errs' => (errs', true)

/-- `AdvancedQueryResolver.validateCriteria(criteriaId, data)`: throws a
plain `Error` when the id is not configured (outside the try/catch);
otherwise the try block resolves the value, coerces it by the first type
rule, and runs the rules; a throw inside the block is caught and recorded as
the `compute` error on top of the errors accumulated so far. -/
def AdvancedQueryResolver.validateCriteriaM (aqr : AdvancedQueryResolver)
    (criteriaId : String) (data : Record) :
    Except JsError IFieldValidationResult × Record :=
  let label := aqr.getCriteriaLabel criteriaId
  match objGet aqr.criteriaConfigs criteriaId with
  | none =>
    (.error ⟨ErrorKind.genericError,
      translateTemplate aqr.translations "errors.criteriaNotConfigured"
        [("criterion", label)]⟩, data)
  | some config =>
    let (raw, d1) :=
      match config.computeValue with
      | some f => (f data, data)
      | none => (Except.ok (recordGet data criteriaId), data)
    match raw with
    | .error _ =>
      (.ok ⟨criteriaId, false,
            some [("compute",
              translateTemplate aqr.translations "errors.computeValueFailed"
                [("criterion", label)])]⟩, d1)
    | .ok v0 =>
      let value := AdvancedQueryResolver.coerceByTypeRule config.rules v0
      let looped :=
        match config.rules with
        | none => ([], false)
        | some rules => AdvancedQueryResolver.rulesLoop aqr.translations label value rules []
      match looped with
      | (errs, true) =>
        (.ok ⟨criteriaId, false,
              some (objSet errs "compute"
                (translateTemplate aqr.translations "errors.computeValueFailed"
                  [("criterion", label)]))⟩, d1)
      | (errs, false) =>
        (.ok ⟨criteriaId, errs.isEmpty,
              if errs.isEmpty then none else some errs⟩, d1)

/-- Result projection of `AdvancedQueryResolver.validateCriteriaM`. -/
def AdvancedQueryResolver.validateCriteria (aqr : AdvancedQueryResolver)
    (criteriaId : String) (data : Record) : Except JsError IFieldValidationResult :=
  (AdvancedQueryResolver.validateCriteriaM aqr criteriaId data).1

/-- The substitution callback of `replaceCriterionWithValues` for one
captured identifier: resolve the value (derivation if configured, record
field otherwise — a throwing derivation propagates to the caller of
`validate`); the value `null` or the string `"null"` becomes the token
`null`, `undefined` or the string `"undefined"` becomes the token
`undefined`; with a first number/string/boolean type rule the value is
converted accordingly; otherwise it is formatted by its runtime type. -/
def AdvancedQueryResolver.substituteCriterionValue
    (aqr : AdvancedQueryResolver) (data : Record) (criterionId : String) :
    Except JsError String :=
  let config? := objGet aqr.criteriaConfigs criterionId
  let rawE : Except JsError JsValue :=
    match config? with
    | some config =>
      match config.computeValue with
      | some f => f data
      | none => Except.ok (recordGet data criterionId)
    | none => Except.ok (recordGet data criterionId)
  match rawE with
  | .error e => .error e
  | .ok value =>
    match value with
    | .null => .ok "null"
    | .str "null" => .ok "null"
    | .undef => .ok "undefined"
    | .str "undefined" => .ok "undefined"
    | value =>
      let typeRule? :=
        match config? with
        | some config =>
          match config.rules with
          | some rs => rs.find? (fun (r : SimpleValidationRule) =>
              r.typeName == "number" || r.typeName == "string" || r.typeName == "boolean")
          | none => none
        | none => none
      match typeRule? with
      | some r =>
        if r.typeName == "number" then
          match jsToNumber value with
          | .nan => .ok "null"
          | n => .ok (jsNumToString n)
        else if r.typeName == "string" then
          .ok ("\"" ++ jsToString value ++ "\"")
        else
          .ok (if jsTruthy value then "true" else "false")
      | none =>
        match value with
        | .str s => .ok ("\"" ++ s ++ "\"")
        | .num n => .ok (jsNumToString n)
        | .bool b => .ok (if b then "true" else "false")
        | v => .ok (jsonStringify v)

/-- State-passing form of the substitution callback (a pure record read). -/
def AdvancedQueryResolver.substituteCriterionValueM
    (aqr : AdvancedQueryResolver) (criterionId : String) (data : Record) :
    Except JsError String × Record :=
  (AdvancedQueryResolver.substituteCriterionValue aqr data criterionId, data)

/-- The scan of `criteria.replace(/\x7b\x7b([^\x7d]+)\x7d\x7d/g, ...)`: each
match is replaced through the callback, non-matching text is copied, and a
failed match position advances by one character. -/
def AdvancedQueryResolver.replaceScanM (aqr : AdvancedQueryResolver) :
    Nat → List Char → Record → Except JsError (List Char) × Record
  | 0, cs, d => (.ok cs, d)
  | _ + 1, [], d => (.ok [], d)
  | fuel + 1, '{' :: '{' :: rest, d =>
    match rest.span (fun c => c != '}') with
    | (w, '}' :: '}' :: rest') =>
      if w.isEmpty then
        let (res, d1) := AdvancedQueryResolver.replaceScanM aqr fuel ('{' :: rest) d
        (res.map (fun cs => '{' :: cs), d1)
      else
        let (sub, d1) := AdvancedQueryResolver.substituteCriterionValueM aqr (String.mk w) d
        match sub with
        | .error e => (.error e, d1)
        | .ok rep =>
          let (res, d2) := AdvancedQueryResolver.replaceScanM aqr fuel rest' d1
          (res.map (fun cs => rep.toList ++ cs), d2)
    | _ =>
      let (res, d1) := AdvancedQueryResolver.replaceScanM aqr fuel ('{' :: rest) d
      (res.map (fun cs => '{' :: cs), d1)
  | fuel + 1, c :: rest, d =>
    let (res, d1) := AdvancedQueryResolver.replaceScanM aqr fuel rest d
    (res.map (fun cs => c :: cs), d1)

/-- `replaceCriterionWithValues(criteria, data)` (state-passing). -/
def AdvancedQueryResolver.replaceCriterionWithValuesM
    (aqr : AdvancedQueryResolver) (criteria : String) (data : Record) :
    Except JsError String × Record :=
  let (res, d1) :=
    AdvancedQueryResolver.replaceScanM aqr criteria.toList.length criteria.toList data
  (res.map String.mk, d1)

/-- `createSandboxContext(data)`: `\x7b...data, ...this.customFunctions\x7d`
(the functions are spread after the data, so a function name wins a
collision).  A pure read of the record. -/
def AdvancedQueryResolver.createSandboxContextM (aqr : AdvancedQueryResolver)
    (data : Record) : List (String × SandboxValue) × Record :=
  (spreadMerge
    (data.map (fun p => (p.1, SandboxValue.val p.2)) ++
     aqr.customFunctions.map (fun p => (p.1, SandboxValue.fn p.2))), data)

/-- The outcome of `AdvancedQueryResolver.validate`. -/
structure ValidateOutcome where
  success : Bool
  errors : Option (List IFieldValidationResult)
deriving DecidableEq, Repr

/-- The synthetic result pushed when the substituted expression fails to
parse or evaluate. -/
def AdvancedQueryResolver.expressionErrorResult (aqr : AdvancedQueryResolver)
    (msg : String) : IFieldValidationResult :=
  ⟨"expression", false,
   some [("expression",
     translateTemplate aqr.translations "errors.expression" [("message", msg)])]⟩

/-- The pre-validation loop of `validate`: `validateCriteria` on each unique
placeholder id, stopping at the first throw (an unconfigured id). -/
def AdvancedQueryResolver.validateCriteriaListM (aqr : AdvancedQueryResolver) :
    List String → Record → Except JsError (List IFieldValidationResult) × Record
  | [], data => (.ok [], data)
  | id :: tl, data =>
    let (r, d1) := AdvancedQueryResolver.validateCriteriaM aqr id data
    match r with
    | .error e => (.error e, d1)
    | .ok res =>
      let (rs, d2) := AdvancedQueryResolver.validateCriteriaListM aqr tl d1
      match rs with
      | .error e => (.error e, d2)
      | .ok results => (.ok (res :: results), d2)

/-- `AdvancedQueryResolver.validate(criteria, data)`: collect the unique
`\x7b\x7b(\w+)\x7d\x7d` ids, pre-validate each (an unconfigured id throws out
of the method), return the failures if any; otherwise, inside the try block,
substitute the placeholders, build the sandbox context and evaluate — any
throw in the block yields `success: false` with an `expression` error, and a
successful evaluation succeeds exactly when its value is strictly `=== true`. -/
def AdvancedQueryResolver.validateM (ev : Evaluator)
    (aqr : AdvancedQueryResolver) (criteria : String) (data : Record) :
    Except JsError ValidateOutcome × Record :=
  let ids := uniqueList (extractWordPlaceholders criteria)
  let (vres, d1) := AdvancedQueryResolver.validateCriteriaListM aqr ids data
  match vres with
  | .error e => (.error e, d1)
  | .ok results =>
    let validationErrors := results.filter (fun r => !r.success)
    if !validationErrors.isEmpty then
      (.ok ⟨false, some validationErrors⟩, d1)
    else
      let (subst, d2) := AdvancedQueryResolver.replaceCriterionWithValuesM aqr criteria d1
      match subst with
      | .error e =>
        (.ok ⟨false, some [AdvancedQueryResolver.expressionErrorResult aqr e.message]⟩, d2)
      | .ok processed =>
        let (ctx, d3) := AdvancedQueryResolver.createSandboxContextM aqr d2
        match ev processed ctx with
        | .error msg =>
          (.ok ⟨false, some [AdvancedQueryResolver.expressionErrorResult aqr msg]⟩, d3)
        | .ok v => (.ok ⟨jsStrictEq v (.bool true), none⟩, d3)

/-- Result projection of `validateM`. -/
def AdvancedQueryResolver.validate (ev : Evaluator)
    (aqr : AdvancedQueryResolver) (criteria : String) (data : Record) :
    Except JsError ValidateOutcome :=
  (AdvancedQueryResolver.validateM ev aqr criteria data).1

/-- The substitution-then-evaluation composite inside the try block of
`validate`, as a single fallible step (used to state which failures the
block catches). -/
def AdvancedQueryResolver.substOrEval (ev : Evaluator)
    (aqr : AdvancedQueryResolver) (criteria : String) (data : Record) :
    Except JsError JsValue :=
  match (AdvancedQueryResolver.replaceCriterionWithValuesM aqr criteria data).1 with
  | .error e => .error e
  | .ok processed =>
    match ev processed ((AdvancedQueryResolver.createSandboxContextM aqr data).1) with
    | .error msg => .error ⟨ErrorKind.genericError, msg⟩
    | .ok v => .ok v

/-- `validateAllFields(data)`: `validateCriteria` over every configured id in
map order, results split into success and failure lists. -/
def AdvancedQueryResolver.validateAllFieldsM (aqr : AdvancedQueryResolver)
    (data : Record) : Except JsError IFieldValidationSummary × Record :=
  let (res, d1) :=
    AdvancedQueryResolver.validateCriteriaListM aqr
      (aqr.criteriaConfigs.map Prod.fst) data
  match res with
  | .error e => (.error e, d1)
  | .ok results =>
    let successFields :=
      (results.filter (fun r => r.success)).map (fun r => r.criteria)
    let failedFields :=
      (results.filter (fun r => !r.success)).map (fun r => (r.criteria, r.errors))
    (.ok ⟨successFields, failedFields, failedFields.isEmpty⟩, d1)

/-- Result projection of `validateAllFieldsM`. -/
def AdvancedQueryResolver.validateAllFields (aqr : AdvancedQueryResolver)
    (data : Record) : Except JsError IFieldValidationSummary :=
  (AdvancedQueryResolver.validateAllFieldsM aqr data).1

/-- `addCustomFunction(name, func)`: a bare assignment into the
`customFunctions` registry — no collision check of any kind. -/
def AdvancedQueryResolver.addCustomFunction (aqr : AdvancedQueryResolver)
    (name : String) (func : JsFunction) : AdvancedQueryResolver :=
  { aqr with customFunctions := objSet aqr.customFunctions name func }



/-! ## Constructor of `EquationResolver` and concrete fixtures -/

/-- The custom-function registration loop of the `EquationResolver`
constructor: `Object.entries(customFunctions).forEach(([name, fn]) =>
this.computationEngine.registerFunction(name, fn))` — a collision throw
propagates out of the constructor. -/
def EquationResolver.registerAll (base : List (String × JsFunction)) :
    Option (List (String × JsFunction)) →
    Except JsError (List (String × JsFunction))
  | none => .ok base
  | some extra =>
    extra.foldl
      (fun acc p =>
        match acc with
        | .error e => .error e
        | .ok fns => ComputationEngine.registerFunction fns p.1 p.2)
      (.ok base)

/-- The `EquationResolver` constructor: the criteria map from the config
list, `DEFAULT_TRANSLATIONS[language] || DEFAULT_TRANSLATIONS.en`, and the
computation-engine registry extended with the optional custom functions. -/
def EquationResolver.make (configs : List ICriteriaValidationConfig)
    (language : String)
    (customFunctions : Option (List (String × JsFunction))) :
    Except JsError EquationResolver :=
  let translations :=
    match objGet DEFAULT_TRANSLATIONS language with
    | some t => t
    | none => translationsEn
  match EquationResolver.registerAll computationDefaultFunctions customFunctions with
  | .error e => .error e
  | .ok fns =>
    .ok ⟨buildCriteriaMap (fun c => c.id) configs, translations, fns⟩

/-- The last config in the construction list carrying the given id — the
characterization the spec words as "last one registered wins". -/
def lastConfigWithId (configs : List ICriteriaValidationConfig) (id : String) :
    Option ICriteriaValidationConfig :=
  configs.foldl (fun acc c => if c.id == id then some c else acc) none

/-- A function value for registration examples. -/
def stubJsFunction : JsFunction := fun _ => Except.ok JsValue.undef

/-- A criterion with a single `number` type rule. -/
def numberTypedConfig : ICriteriaValidationConfig := ⟨"x", none, some [.number], none⟩

/-- Resolver configured with `numberTypedConfig` only. -/
def aqrNumberTyped : AdvancedQueryResolver :=
  AdvancedQueryResolver.make [numberTypedConfig] "en"

/-- A criterion `a` with no rules and no derivation. -/
def noRuleConfigA : ICriteriaValidationConfig := ⟨"a", none, none, none⟩

/-- Resolver configured with `noRuleConfigA` only. -/
def aqrNoRuleA : AdvancedQueryResolver :=
  AdvancedQueryResolver.make [noRuleConfigA] "en"

/-- Host evaluation of the one expression "undefined >= 10": in JS,
`undefined` converts to NaN and the comparison yields `false` without
throwing. -/
def evalUndefGe10 : Evaluator := fun expr _ =>
  if expr = "undefined >= 10" then .ok (.bool false)
  else .error "unexpected expression"

/-- A host evaluation that throws (a syntax error) on every expression. -/
def evalFail : Evaluator := fun _ _ => .error "SyntaxError: Unexpected token"

/-- Host evaluation of the one expression "1": `new Function("return 1")`
returns the number `1`. -/
def evalOne : Evaluator := fun _ _ => .ok (.num (.finite 1))

/-- A criterion whose rule's runtime `type` string is outside the known
set. -/
def unknownRuleConfig : ICriteriaValidationConfig :=
  ⟨"x", none, some [.unknownRule "magic"], none⟩

/-- An `EquationResolver` holding `unknownRuleConfig`. -/
def unknownRuleResolver : EquationResolver :=
  ⟨buildCriteriaMap (fun c => c.id) [unknownRuleConfig], translationsEn,
   computationDefaultFunctions⟩

/-- A derivation that throws. -/
def throwingDerivation : Record → Except JsError JsValue :=
  fun _ => .error ⟨ErrorKind.genericError, "boom"⟩

/-- A criterion whose derivation throws. -/
def throwingConfig : ICriteriaValidationConfig :=
  ⟨"a", none, none, some throwingDerivation⟩

/-- An `EquationResolver` holding `throwingConfig`. -/
def throwingResolver : EquationResolver :=
  ⟨buildCriteriaMap (fun c => c.id) [throwingConfig], translationsEn,
   computationDefaultFunctions⟩

/-- An `EquationResolver` holding `noRuleConfigA`. -/
def plainResolver : EquationResolver :=
  ⟨buildCriteriaMap (fun c => c.id) [noRuleConfigA], translationsEn,
   computationDefaultFunctions⟩

/-- Two configs sharing the id `a`. -/
def dupConfigA1 : ICriteriaValidationConfig := ⟨"a", some "first", none, none⟩

/-- The second config with id `a`: the one the map must keep. -/
def dupConfigA2 : ICriteriaValidationConfig := ⟨"a", some "second", none, none⟩

/-- The resolver built from the duplicate-id list. -/
def dupResolverER : EquationResolver :=
  ⟨buildCriteriaMap (fun c => c.id) [dupConfigA1, dupConfigA2], translationsEn,
   computationDefaultFunctions⟩

theorem objGet_nil {α : Type} (k : String) : objGet ([] : List (String × α)) k = none := rfl

theorem objGet_cons {α : Type} (k1 k' : String) (v1 : α) (tl : List (String × α)) :
    objGet ((k1, v1) :: tl) k' = if k1 == k' then some v1 else objGet tl k' := by
  by_cases h : k1 == k' <;> simp [objGet, List.find?_cons, h]

theorem objGet_objSet {α : Type} (m : List (String × α)) (k k' : String) (v : α) :
    objGet (objSet m k v) k' = if k == k' then some v else objGet m k' := by
  induction m with
  | nil =>
    by_cases hk : k = k' <;> simp [objSet, objGet, hk]
  | cons p tl ih =>
    obtain ⟨k1, v1⟩ := p
    by_cases h1 : k1 = k
    · subst h1
      by_cases hk : k1 = k' <;> simp [objSet, objGet_cons, hk]
    · by_cases hk : k = k'
      · subst hk
        simp [objSet, objGet_cons, h1, ih]
      · simp only [objSet, beq_iff_eq, h1, if_false]
        by_cases h2 : k1 = k' <;> simp [objGet_cons, h2, ih, hk]

theorem objGet_none_iff {α : Type} (m : List (String × α)) (k : String) :
    objGet m k = none ↔ ∀ v : α, (k, v) ∉ m := by
  induction m with
  | nil => simp [objGet]
  | cons p tl ih =>
    obtain ⟨k1, v1⟩ := p
    by_cases h : k1 = k
    · subst h
      simp [objGet_cons]
      exact ⟨v1, fun hc => absurd rfl hc⟩
    · simp only [objGet_cons, beq_iff_eq, h, if_false, ih, List.mem_cons]
      constructor
      · intro hall v hv
        rcases hv with hv | hv
        · exact h (by injection hv with h1 _; exact h1.symm)
        · exact hall v hv
      · intro hall v hv
        exact hall v (Or.inr hv)

theorem keys_objSet {α : Type} (m : List (String × α)) (k : String) (v : α) :
    (objSet m k v).map Prod.fst =
      if (objGet m k).isSome then m.map Prod.fst else m.map Prod.fst ++ [k] := by
  induction m with
  | nil => simp [objSet, objGet]
  | cons p tl ih =>
    obtain ⟨k1, v1⟩ := p
    by_cases h : k1 = k
    · simp [objSet, objGet_cons, h, ih]
    · simp [objSet, objGet_cons, h, ih]
      by_cases h2 : (objGet tl k).isSome <;> simp [h2]

theorem nodupKeys_objSet {α : Type} (m : List (String × α)) (k : String) (v : α)
    (h : (m.map Prod.fst).Nodup) : ((objSet m k v).map Prod.fst).Nodup := by
  rw [keys_objSet]
  cases hg : objGet m k with
  | some w => simp [hg, h]
  | none =>
    have hnot : k ∉ m.map Prod.fst := by
      intro hmem
      rcases List.mem_map.mp hmem with ⟨⟨k2, v2⟩, hp, hk⟩
      dsimp at hk
      subst hk
      exact (objGet_none_iff _ _).mp hg v2 hp
    simp [hg, List.nodup_append, h, hnot]

theorem objGet_foldl_objSet {α : Type} (idOf : α → String) (l : List α)
    (id : String) : ∀ (m : List (String × α)),
    objGet (l.foldl (fun acc c => objSet acc (idOf c) c) m) id =
      l.foldl (fun acc c => if idOf c == id then some c else acc) (objGet m id) := by
  induction l with
  | nil => intro m; rfl
  | cons c tl ih =>
    intro m
    simp only [List.foldl_cons, ih, objGet_objSet]

theorem nodupKeys_foldl_objSet {α : Type} (idOf : α → String) (l : List α) :
    ∀ (m : List (String × α)), (m.map Prod.fst).Nodup →
    (((l.foldl (fun acc c => objSet acc (idOf c) c) m).map Prod.fst)).Nodup := by
  induction l with
  | nil => intro m h; exact h
  | cons c tl ih =>
    intro m h
    exact ih _ (nodupKeys_objSet m (idOf c) c h)

theorem mem_uniqueList (x : String) (l : List String) :
    x ∈ uniqueList l ↔ x ∈ l := by
  have key : ∀ (l' : List String) (acc : List String),
      x ∈ l'.foldl (fun acc y => if y ∈ acc then acc else acc ++ [y]) acc ↔
        x ∈ acc ∨ x ∈ l' := by
    intro l'
    induction l' with
    | nil => intro acc; simp
    | cons y tl ih =>
      intro acc
      simp only [List.foldl_cons, ih]
      by_cases hy : y ∈ acc
      · simp only [hy, if_true, List.mem_cons]
        constructor
        · intro hx; tauto
        · intro hx
          rcases hx with h1 | h2 | h3
          · exact Or.inl h1
          · exact Or.inl (h2 ▸ hy)
          · exact Or.inr h3
      · simp only [hy, if_false, List.mem_append, List.mem_singleton, List.mem_cons]
        tauto
  simpa using key l []

/-! Frame lemmas: every engine operation returns the record it was given. -/

theorem resolveRawValueM_snd (c : ICriteriaValidationConfig) (d : Record) :
    (resolveRawValueM c d).2 = d := by
  cases h : c.computeValue <;> simp [resolveRawValueM, h]

theorem veValidateCriteriaM_snd (c : ICriteriaValidationConfig)
    (t : List (String × String)) (d : Record) :
    (ValidationEngine.validateCriteriaM c t d).2 = d := by
  unfold ValidationEngine.validateCriteriaM
  rcases hr : resolveRawValueM c d with ⟨raw, d1⟩
  have hd : d1 = d := by
    have h2 := resolveRawValueM_snd c d
    rw [hr] at h2
    exact h2
  subst hd
  cases raw with
  | error e => rfl
  | ok v =>
    cases hrule : c.rules with
    | none => rfl
    | some rules =>
      by_cases hre : rules.isEmpty <;> simp [hre]

theorem erValidateCriteriaListM_snd
    (t : List (String × String)) :
    ∀ (l : List ICriteriaValidationConfig) (d : Record),
    (EquationResolver.validateCriteriaListM t l d).2 = d := by
  intro l
  induction l with
  | nil => intro d; rfl
  | cons c tl ih =>
    intro d
    unfold EquationResolver.validateCriteriaListM
    by_cases hid : c.id = ""
    · simp [hid]
    · simp only [hid, if_false]
      rcases hr : ValidationEngine.validateCriteriaM c t d with ⟨r, d1⟩
      have hd : d1 = d := by
        have h2 := veValidateCriteriaM_snd c t d
        rw [hr] at h2
        exact h2
      dsimp only
      cases r with
      | error e => simpa using hd
      | ok res =>
        rcases hs : EquationResolver.validateCriteriaListM t tl d1 with ⟨rs, d2⟩
        have hd2 : d2 = d1 := by
          have h3 := ih d1
          rw [hs] at h3
          exact h3
        dsimp only
        cases rs <;> simp [hd2, hd]

theorem EquationResolver.validateEquationM_snd (resolver : EquationResolver)
    (d : Record) : (EquationResolver.validateEquationM resolver d).2 = d := by
  unfold EquationResolver.validateEquationM
  rcases hs : EquationResolver.validateCriteriaListM resolver.translations
      (resolver.criteriaConfigs.map Prod.snd) d with ⟨rs, d1⟩
  have hd : d1 = d := by
    have h := erValidateCriteriaListM_snd resolver.translations
      (resolver.criteriaConfigs.map Prod.snd) d
    rw [hs] at h
    exact h
  dsimp only
  cases rs <;> simp [hd]

theorem erComputeValueM_snd (resolver : EquationResolver)
    (cid : String) (d : Record) :
    (EquationResolver.computeValueM resolver cid d).2 = d := by
  unfold EquationResolver.computeValueM
  cases hc : objGet resolver.criteriaConfigs cid with
  | none => rfl
  | some config =>
    dsimp only
    cases hf : config.computeValue with
    | none => simp [hf]
    | some f =>
      cases hd : f d <;> simp [hf, hd]

theorem ceComputeValueM_snd (ev : Evaluator)
    (functions : List (String × JsFunction)) (expr : String) (d : Record) :
    (ComputationEngine.computeValueM ev functions expr d).2 = d := by
  unfold ComputationEngine.computeValueM
  dsimp only
  split <;> rfl

theorem aqrValidateCriteriaM_snd
    (aqr : AdvancedQueryResolver) (cid : String) (d : Record) :
    (AdvancedQueryResolver.validateCriteriaM aqr cid d).2 = d := by
  unfold AdvancedQueryResolver.validateCriteriaM
  cases hc : objGet aqr.criteriaConfigs cid with
  | none => rfl
  | some config =>
    dsimp only
    cases hf : config.computeValue with
    | none =>
      simp only [hf]
      cases hrule : config.rules with
      | none => simp [hrule]
      | some rules =>
        simp only [hrule]
        rcases AdvancedQueryResolver.rulesLoop aqr.translations
          (aqr.getCriteriaLabel cid) _ rules [] with ⟨errs, threw⟩
        cases threw <;> rfl
    | some f =>
      simp only [hf]
      cases hd : f d with
      | error e => simp [hd]
      | ok v0 =>
        simp only [hd]
        cases hrule : config.rules with
        | none => simp [hrule]
        | some rules =>
          simp only [hrule]
          rcases AdvancedQueryResolver.rulesLoop aqr.translations
            (aqr.getCriteriaLabel cid) _ rules [] with ⟨errs, threw⟩
          cases threw <;> rfl

theorem aqrValidateCriteriaListM_snd
    (aqr : AdvancedQueryResolver) :
    ∀ (ids : List String) (d : Record),
    (AdvancedQueryResolver.validateCriteriaListM aqr ids d).2 = d := by
  intro ids
  induction ids with
  | nil => intro d; rfl
  | cons id tl ih =>
    intro d
    unfold AdvancedQueryResolver.validateCriteriaListM
    rcases hr : AdvancedQueryResolver.validateCriteriaM aqr id d with ⟨r, d1⟩
    have hd : d1 = d := by
      have h := aqrValidateCriteriaM_snd aqr id d
      rw [hr] at h
      exact h
    dsimp only
    cases r with
    | error e => simpa using hd
    | ok res =>
      rcases hs : AdvancedQueryResolver.validateCriteriaListM aqr tl d1 with ⟨rs, d2⟩
      have hd2 : d2 = d1 := by
        have h := ih d1
        rw [hs] at h
        exact h
      dsimp only
      cases rs <;> simp [hd2, hd]

theorem AdvancedQueryResolver.replaceScanM_snd (aqr : AdvancedQueryResolver) :
    ∀ (fuel : Nat) (cs : List Char) (d : Record),
    (AdvancedQueryResolver.replaceScanM aqr fuel cs d).2 = d := by
  intro fuel
  induction fuel with
  | zero => intro cs d; rfl
  | succ n ih =>
    intro cs d
    rw [AdvancedQueryResolver.replaceScanM.eq_def]
    split
    · rfl
    · rfl
    · rename_i d' u v w fuel' rest heq
      obtain rfl : n = fuel' := by omega
      split
      · rename_i pr w1 rest' hspan
        by_cases hw : w1.isEmpty
        · rw [if_pos hw]
          rcases hs : AdvancedQueryResolver.replaceScanM aqr n ('{' :: rest) d' with ⟨res, d1⟩
          have hd := ih ('{' :: rest) d'
          rw [hs] at hd
          simpa using hd
        · rw [if_neg hw]
          unfold AdvancedQueryResolver.substituteCriterionValueM
          dsimp only
          cases AdvancedQueryResolver.substituteCriterionValue aqr d' (String.mk w1) with
          | error e => rfl
          | ok rep =>
            rcases hs : AdvancedQueryResolver.replaceScanM aqr n rest' d' with ⟨res, d2⟩
            have hd := ih rest' d'
            rw [hs] at hd
            simpa using hd
      · rcases hs : AdvancedQueryResolver.replaceScanM aqr n ('{' :: rest) d' with ⟨res, d1⟩
        have hd := ih ('{' :: rest) d'
        rw [hs] at hd
        simpa using hd
    · rename_i d' u v w fuel' c rest heq hno
      obtain rfl : n = fuel' := by omega
      rcases hs : AdvancedQueryResolver.replaceScanM aqr n rest d' with ⟨res, d1⟩
      have hd := ih rest d'
      rw [hs] at hd
      simpa using hd

theorem AdvancedQueryResolver.replaceCriterionWithValuesM_snd
    (aqr : AdvancedQueryResolver) (criteria : String) (d : Record) :
    (AdvancedQueryResolver.replaceCriterionWithValuesM aqr criteria d).2 = d := by
  unfold AdvancedQueryResolver.replaceCriterionWithValuesM
  rcases hs : AdvancedQueryResolver.replaceScanM aqr criteria.toList.length
      criteria.toList d with ⟨res, d1⟩
  have hd := AdvancedQueryResolver.replaceScanM_snd aqr criteria.toList.length
    criteria.toList d
  rw [hs] at hd
  simpa using hd

theorem AdvancedQueryResolver.createSandboxContextM_snd
    (aqr : AdvancedQueryResolver) (d : Record) :
    (AdvancedQueryResolver.createSandboxContextM aqr d).2 = d := rfl

theorem AdvancedQueryResolver.validateM_snd (ev : Evaluator)
    (aqr : AdvancedQueryResolver) (criteria : String) (d : Record) :
    (AdvancedQueryResolver.validateM ev aqr criteria d).2 = d := by
  unfold AdvancedQueryResolver.validateM
  dsimp only
  rw [aqrValidateCriteriaListM_snd,
      AdvancedQueryResolver.replaceCriterionWithValuesM_snd,
      AdvancedQueryResolver.createSandboxContextM_snd]
  repeat' split
  all_goals rfl

theorem AdvancedQueryResolver.validateAllFieldsM_snd
    (aqr : AdvancedQueryResolver) (d : Record) :
    (AdvancedQueryResolver.validateAllFieldsM aqr d).2 = d := by
  unfold AdvancedQueryResolver.validateAllFieldsM
  dsimp only
  rw [aqrValidateCriteriaListM_snd]
  repeat' split
  all_goals rfl

/-! Resolution lemmas for the pre-validation loop of `validate`. -/

theorem AdvancedQueryResolver.validateCriteriaM_ok_of_config
    (aqr : AdvancedQueryResolver) (cid : String) (d : Record)
    (config : ICriteriaValidationConfig)
    (hc : objGet aqr.criteriaConfigs cid = some config) :
    ∃ r, (AdvancedQueryResolver.validateCriteriaM aqr cid d).1 = .ok r := by
  unfold AdvancedQueryResolver.validateCriteriaM
  rw [hc]
  dsimp only
  cases hf : config.computeValue with
  | none =>
    simp only [hf]
    cases hrule : config.rules with
    | none => exact ⟨_, rfl⟩
    | some rules =>
      simp only [hrule]
      rcases hl : AdvancedQueryResolver.rulesLoop aqr.translations
          (aqr.getCriteriaLabel cid) _ rules [] with ⟨errs, threw⟩
      cases threw <;> exact ⟨_, rfl⟩
  | some f =>
    simp only [hf]
    cases hd : f d with
    | error e => simp only [hd]; exact ⟨_, rfl⟩
    | ok v0 =>
      simp only [hd]
      cases hrule : config.rules with
      | none => exact ⟨_, rfl⟩
      | some rules =>
        simp only [hrule]
        rcases hl : AdvancedQueryResolver.rulesLoop aqr.translations
            (aqr.getCriteriaLabel cid) _ rules [] with ⟨errs, threw⟩
        cases threw <;> exact ⟨_, rfl⟩

theorem AdvancedQueryResolver.validateCriteriaM_error_of_no_config
    (aqr : AdvancedQueryResolver) (cid : String) (d : Record)
    (hc : objGet aqr.criteriaConfigs cid = none) :
    (AdvancedQueryResolver.validateCriteriaM aqr cid d).1 =
      .error ⟨ErrorKind.genericError,
        translateTemplate aqr.translations "errors.criteriaNotConfigured"
          [("criterion", cid)]⟩ := by
  unfold AdvancedQueryResolver.validateCriteriaM
    AdvancedQueryResolver.getCriteriaLabel
  rw [hc]

theorem AdvancedQueryResolver.validateCriteriaListM_all_ok
    (aqr : AdvancedQueryResolver) :
    ∀ (ids : List String) (d : Record),
    (∀ id ∈ ids, ∃ r, (AdvancedQueryResolver.validateCriteriaM aqr id d).1 = .ok r ∧
        r.success = true) →
    ∃ results, (AdvancedQueryResolver.validateCriteriaListM aqr ids d).1 = .ok results ∧
      results.filter (fun r => !r.success) = [] := by
  intro ids
  induction ids with
  | nil => intro d _; exact ⟨[], rfl, rfl⟩
  | cons id tl ih =>
    intro d hall
    rcases hall id (List.mem_cons_self id tl) with ⟨r, hok, hsucc⟩
    rcases hp : AdvancedQueryResolver.validateCriteriaM aqr id d with ⟨r1, d1⟩
    have hd1 : d = d1 := by
      have h := aqrValidateCriteriaM_snd aqr id d
      rw [hp] at h
      exact h.symm
    rw [hp] at hok
    dsimp only at hok
    subst hok
    subst hd1
    rcases ih d (fun i hi => hall i (List.mem_cons_of_mem id hi)) with
      ⟨results, hres, hfil⟩
    rcases hq : AdvancedQueryResolver.validateCriteriaListM aqr tl d with ⟨rs, d2⟩
    rw [hq] at hres
    dsimp only at hres
    subst hres
    refine ⟨r :: results, ?_, ?_⟩
    · unfold AdvancedQueryResolver.validateCriteriaListM
      rw [hp]
      dsimp only
      rw [hq]
    · simp [List.filter_cons, hsucc, hfil]

theorem AdvancedQueryResolver.validateCriteriaListM_error_generic
    (aqr : AdvancedQueryResolver) :
    ∀ (ids : List String) (d : Record),
    (∃ id ∈ ids, objGet aqr.criteriaConfigs id = none) →
    ∃ msg, (AdvancedQueryResolver.validateCriteriaListM aqr ids d).1 =
      .error ⟨ErrorKind.genericError, msg⟩ := by
  intro ids
  induction ids with
  | nil => intro d h; simp at h
  | cons id tl ih =>
    intro d hex
    cases hc : objGet aqr.criteriaConfigs id with
    | none =>
      refine ⟨translateTemplate aqr.translations "errors.criteriaNotConfigured"
        [("criterion", id)], ?_⟩
      have herr := AdvancedQueryResolver.validateCriteriaM_error_of_no_config aqr id d hc
      rcases hp : AdvancedQueryResolver.validateCriteriaM aqr id d with ⟨r1, d1⟩
      rw [hp] at herr
      dsimp only at herr
      subst herr
      unfold AdvancedQueryResolver.validateCriteriaListM
      rw [hp]
    | some config =>
      have htl : ∃ i ∈ tl, objGet aqr.criteriaConfigs i = none := by
        rcases hex with ⟨i, hi, hnone⟩
        rcases List.mem_cons.mp hi with h1 | h2
        · subst h1
          rw [hc] at hnone
          cases hnone
        · exact ⟨i, h2, hnone⟩
      rcases AdvancedQueryResolver.validateCriteriaM_ok_of_config aqr id d config hc with
        ⟨r, hok⟩
      rcases hp : AdvancedQueryResolver.validateCriteriaM aqr id d with ⟨r1, d1⟩
      have hd1 : d = d1 := by
        have h := aqrValidateCriteriaM_snd aqr id d
        rw [hp] at h
        exact h.symm
      rw [hp] at hok
      dsimp only at hok
      subst hok
      subst hd1
      rcases ih d htl with ⟨msg, hmsg⟩
      rcases hq : AdvancedQueryResolver.validateCriteriaListM aqr tl d with ⟨rs, d2⟩
      rw [hq] at hmsg
      dsimp only at hmsg
      subst hmsg
      refine ⟨msg, ?_⟩
      unfold AdvancedQueryResolver.validateCriteriaListM
      rw [hp]
      dsimp only
      rw [hq]

theorem objSet_ne_nil {α : Type} (m : List (String × α)) (k : String) (v : α) :
    objSet m k v ≠ [] := by
  cases m with
  | nil => simp [objSet]
  | cons p tl =>
    unfold objSet
    by_cases h : p.1 == k <;> simp [h]

theorem ValidationEngine.rulesLoop_ne_nil_of_ne_nil (value : JsValue)
    (t : List (String × String)) :
    ∀ (l : List SimpleValidationRule) (errs : List (String × String)),
    errs ≠ [] → ValidationEngine.rulesLoop value t l errs ≠ [] := by
  intro l
  induction l with
  | nil => intro errs h; exact h
  | cons r tl ih =>
    intro errs h
    unfold ValidationEngine.rulesLoop
    cases hv : ValidationEngine.validateRule value r with
    | ok b =>
      cases b with
      | true => exact ih errs h
      | false => exact ih _ (objSet_ne_nil _ _ _)
    | error e => exact ih _ (objSet_ne_nil _ _ _)

theorem ValidationEngine.rulesLoop_unknown_ne_nil (value : JsValue)
    (t : List (String × String)) (tag : String) :
    ∀ (l : List SimpleValidationRule) (errs : List (String × String)),
    SimpleValidationRule.unknownRule tag ∈ l →
    ValidationEngine.rulesLoop value t l errs ≠ [] := by
  intro l
  induction l with
  | nil => intro errs h; simp at h
  | cons r tl ih =>
    intro errs hmem
    unfold ValidationEngine.rulesLoop
    rcases List.mem_cons.mp hmem with h1 | h2
    · subst h1
      simp only [ValidationEngine.validateRule]
      exact ValidationEngine.rulesLoop_ne_nil_of_ne_nil value t tl _
        (objSet_ne_nil _ _ _)
    · cases hv : ValidationEngine.validateRule value r with
      | ok b =>
        cases b with
        | true => exact ih errs h2
        | false => exact ih _ h2
      | error e => exact ih _ h2

theorem jsStrictEq_bool_true_iff (v : JsValue) :
    jsStrictEq v (.bool true) = true ↔ v = .bool true := by
  cases v with
  | bool b => cases b <;> simp [jsStrictEq]
  | num n => cases n <;> simp [jsStrictEq]
  | undef => simp [jsStrictEq]
  | null => simp [jsStrictEq]
  | str s => simp [jsStrictEq]
  | arr xs => simp [jsStrictEq]
  | obj fields => simp [jsStrictEq]

theorem EquationResolver.validateCriteriaListM_mem_no_rules
    (t : List (String × String)) :
    ∀ (configs : List ICriteriaValidationConfig) (d : Record)
      (results : List IFieldValidationResult)
      (cfg : ICriteriaValidationConfig),
    (EquationResolver.validateCriteriaListM t configs d).1 = .ok results →
    cfg ∈ configs → (cfg.rules = none ∨ cfg.rules = some []) →
    (⟨cfg.id, true, none⟩ : IFieldValidationResult) ∈ results := by
  intro configs
  induction configs with
  | nil => intro d results cfg h hmem _; simp at hmem
  | cons c tl ih =>
    intro d results cfg h hmem hno
    unfold EquationResolver.validateCriteriaListM at h
    by_cases hid : c.id = ""
    · simp [hid] at h
    · simp only [hid, if_false] at h
      rcases hp : ValidationEngine.validateCriteriaM c t d with ⟨r, d1⟩
      rw [hp] at h
      dsimp only at h
      cases r with
      | error e => cases h
      | ok res =>
        rcases hq : EquationResolver.validateCriteriaListM t tl d1 with ⟨rs, d2⟩
        rw [hq] at h
        dsimp only at h
        cases rs with
        | error e => cases h
        | ok results' =>
          injection h with h
          subst h
          rcases List.mem_cons.mp hmem with hcfg | hcfg
          · subst hcfg
            have hres : res = ⟨cfg.id, true, none⟩ := by
              unfold ValidationEngine.validateCriteriaM at hp
              rcases hraw : resolveRawValueM cfg d with ⟨raw, dr⟩
              rw [hraw] at hp
              dsimp only at hp
              cases raw with
              | error e => injection hp with hp1 _; cases hp1
              | ok value =>
                rcases hno with hno | hno <;> rw [hno] at hp <;>
                  simp only [List.isEmpty_nil, if_true] at hp <;>
                  injection hp with hp1 _ <;> injection hp1 with hp1 <;>
                  exact hp1.symm
            rw [← hres]
            exact List.mem_cons_self res results'
          · exact List.mem_cons_of_mem res
              (ih d1 results' cfg (by rw [hq]) hcfg hno)

theorem ValidationEngine.validateCriteria_unknown_recovered
    (cfg : ICriteriaValidationConfig) (t : List (String × String)) (d : Record)
    (tag : String) (rules : List SimpleValidationRule)
    (hrules : cfg.rules = some rules)
    (hmem : SimpleValidationRule.unknownRule tag ∈ rules)
    (hcompute : cfg.computeValue = none) :
    ∃ r, ValidationEngine.validateCriteria cfg t d = .ok r ∧ r.success = false ∧
      r.errors ≠ none := by
  unfold ValidationEngine.validateCriteria ValidationEngine.validateCriteriaM
    resolveRawValueM
  rw [hcompute, hrules]
  dsimp only
  have hie : rules.isEmpty = false := by
    cases rules with
    | nil => simp at hmem
    | cons a l => rfl
  rw [hie]
  simp only [Bool.false_eq_true, if_false]
  have hne := ValidationEngine.rulesLoop_unknown_ne_nil (recordGet d cfg.id) t
    tag rules [] hmem
  have hie2 : (ValidationEngine.rulesLoop (recordGet d cfg.id) t rules []).isEmpty
      = false := by
    cases h : ValidationEngine.rulesLoop (recordGet d cfg.id) t rules [] with
    | nil => exact absurd h hne
    | cons a l => rfl
  exact ⟨_, rfl, by simp [hie2], by simp [hie2]⟩

theorem AdvancedQueryResolver.validate_eval_cases (ev : Evaluator)
    (aqr : AdvancedQueryResolver) (criteria : String) (data : Record)
    (hpass : ∀ id ∈ extractWordPlaceholders criteria,
      ∃ r, (AdvancedQueryResolver.validateCriteriaM aqr id data).1 = .ok r ∧
        r.success = true) :
    (∀ e, AdvancedQueryResolver.substOrEval ev aqr criteria data = .error e →
      AdvancedQueryResolver.validate ev aqr criteria data =
        .ok ⟨false, some [AdvancedQueryResolver.expressionErrorResult aqr e.message]⟩) ∧
    (∀ v, AdvancedQueryResolver.substOrEval ev aqr criteria data = .ok v →
      AdvancedQueryResolver.validate ev aqr criteria data =
        .ok ⟨jsStrictEq v (.bool true), none⟩) := by
  have hpass' : ∀ id ∈ uniqueList (extractWordPlaceholders criteria),
      ∃ r, (AdvancedQueryResolver.validateCriteriaM aqr id data).1 = .ok r ∧
        r.success = true :=
    fun id hid => hpass id ((mem_uniqueList id _).mp hid)
  rcases AdvancedQueryResolver.validateCriteriaListM_all_ok aqr _ data hpass' with
    ⟨results, hres, hfil⟩
  unfold AdvancedQueryResolver.validate AdvancedQueryResolver.validateM
    AdvancedQueryResolver.substOrEval
  rcases hq : AdvancedQueryResolver.validateCriteriaListM aqr
      (uniqueList (extractWordPlaceholders criteria)) data with ⟨rs, d1⟩
  have hd1 : data = d1 := by
    have h := aqrValidateCriteriaListM_snd aqr
      (uniqueList (extractWordPlaceholders criteria)) data
    rw [hq] at h
    exact h.symm
  subst hd1
  rw [hq] at hres
  dsimp only at hres
  subst hres
  dsimp only
  rw [hq]
  dsimp only
  rw [hfil]
  simp only [List.isEmpty_nil, Bool.not_true, Bool.false_eq_true, if_false]
  rcases hsub : AdvancedQueryResolver.replaceCriterionWithValuesM aqr criteria data
    with ⟨sub, d2⟩
  have hd2 : data = d2 := by
    have h := AdvancedQueryResolver.replaceCriterionWithValuesM_snd aqr criteria data
    rw [hsub] at h
    exact h.symm
  subst hd2
  dsimp only
  cases sub with
  | error e =>
    dsimp only
    constructor
    · intro e' he'
      injection he' with he'
      subst he'
      rfl
    · intro v hv
      cases hv
  | ok processed =>
    dsimp only
    cases hev : ev processed (AdvancedQueryResolver.createSandboxContextM aqr data).1 with
    | error msg =>
      simp only [hev]
      constructor
      · intro e' he'
        injection he' with he'
        subst he'
        rfl
      · intro v hv
        cases hv
    | ok v0 =>
      simp only [hev]
      constructor
      · intro e' he'
        cases he'
      · intro v hv
        injection hv with hv
        subst hv
        rfl

/-! ## Claim theorems -/

/-- C1: equation evaluation is fail-closed.  For every evaluator, template
and record whose referenced (word-character) placeholders all pass individual
validation, `AdvancedQueryResolver.validate` returns a result rather than
throwing; whenever substitution or evaluation of the substituted expression
fails, that result is `success = false` carrying an `expression` error
detail; and a placeholder whose identifier is not configured and not in the
record substitutes the token `undefined` (which, under the documented host
semantics of comparisons against `undefined`, yields a false equation, not an
exception — see the witness). -/
theorem AdvancedQueryResolver.validate_fail_closed (ev : Evaluator)
    (aqr : AdvancedQueryResolver) (criteria : String) (data : Record)
    (hpass : ∀ id ∈ extractWordPlaceholders criteria,
      ∃ r, (AdvancedQueryResolver.validateCriteriaM aqr id data).1 = .ok r ∧
        r.success = true) :
    (∃ out, AdvancedQueryResolver.validate ev aqr criteria data = .ok out) ∧
    (∀ e, AdvancedQueryResolver.substOrEval ev aqr criteria data = .error e →
      AdvancedQueryResolver.validate ev aqr criteria data =
        .ok ⟨false, some [AdvancedQueryResolver.expressionErrorResult aqr e.message]⟩) ∧
    (∀ cid, objGet aqr.criteriaConfigs cid = none → recordGet data cid = .undef →
      AdvancedQueryResolver.substituteCriterionValue aqr data cid = .ok "undefined") := by
  obtain ⟨herr, hok⟩ :=
    AdvancedQueryResolver.validate_eval_cases ev aqr criteria data hpass
  refine ⟨?_, herr, ?_⟩
  · cases hs : AdvancedQueryResolver.substOrEval ev aqr criteria data with
    | error e => exact ⟨_, herr e hs⟩
    | ok v => exact ⟨_, hok v hs⟩
  · intro cid h1 h2
    unfold AdvancedQueryResolver.substituteCriterionValue
    rw [h1]
    dsimp only
    rw [h2]

/-- C1 witness: with the single rule-less criterion `a`, an empty record and
an evaluator modelling the host value of `undefined >= 10` (false, no
throw), `validate` returns a result; with a throwing evaluator it returns
the fail-closed `success = false` outcome; and the unconfigured placeholder
`b` substitutes the token `undefined`. -/
theorem AdvancedQueryResolver.validate_fail_closed_witness :
    (∃ out, AdvancedQueryResolver.validate evalUndefGe10 aqrNoRuleA
        "\x7b\x7ba\x7d\x7d >= 10" [] = .ok out) ∧
    (AdvancedQueryResolver.validate evalFail aqrNoRuleA
        "\x7b\x7ba\x7d\x7d >= 10" [] =
      .ok ⟨false, some [AdvancedQueryResolver.expressionErrorResult aqrNoRuleA
        "SyntaxError: Unexpected token"]⟩) ∧
    AdvancedQueryResolver.substituteCriterionValue aqrNoRuleA [] "b" =
      .ok "undefined" := by
  have hpass : ∀ id ∈ extractWordPlaceholders "\x7b\x7ba\x7d\x7d >= 10",
      ∃ r, (AdvancedQueryResolver.validateCriteriaM aqrNoRuleA id []).1 = .ok r ∧
        r.success = true := by
    intro id hid
    rw [show extractWordPlaceholders "\x7b\x7ba\x7d\x7d >= 10" = ["a"] from rfl] at hid
    rcases List.mem_singleton.mp hid with rfl
    exact ⟨⟨"a", true, none⟩, rfl, rfl⟩
  refine ⟨?_, ?_, ?_⟩
  · exact (AdvancedQueryResolver.validate_fail_closed evalUndefGe10 aqrNoRuleA
      "\x7b\x7ba\x7d\x7d >= 10" [] hpass).1
  · exact (AdvancedQueryResolver.validate_fail_closed evalFail aqrNoRuleA
      "\x7b\x7ba\x7d\x7d >= 10" [] hpass).2.1
      ⟨ErrorKind.genericError, "SyntaxError: Unexpected token"⟩ rfl
  · exact (AdvancedQueryResolver.validate_fail_closed evalUndefGe10 aqrNoRuleA
      "\x7b\x7ba\x7d\x7d >= 10" [] hpass).2.2 "b" rfl rfl

/-- C6 counterexample: the claim says success is the truthiness of the
evaluated value, but the code tests `result === true`.  With an evaluator
returning the number `1` for the template `1` (the host value of
`new Function("return 1")`), the value is truthy yet `validate` reports
`success = false`. -/
theorem equation_truthiness_counterexample :
    AdvancedQueryResolver.validate evalOne (AdvancedQueryResolver.make [] "en")
      "1" [] = .ok ⟨false, none⟩ ∧
    jsTruthy (.num (.finite 1)) = true := ⟨rfl, rfl⟩

/-- C6 amended: when the substituted expression evaluates without error to a
value `v`, the overall success of `validate` is `v === true` (strict
equality with boolean `true`), not truthiness: the result succeeds exactly
when `v` is the boolean `true`. -/
theorem equation_strict_true_amended (ev : Evaluator)
    (aqr : AdvancedQueryResolver) (criteria : String) (data : Record)
    (v : JsValue)
    (hpass : ∀ id ∈ extractWordPlaceholders criteria,
      ∃ r, (AdvancedQueryResolver.validateCriteriaM aqr id data).1 = .ok r ∧
        r.success = true)
    (hok : AdvancedQueryResolver.substOrEval ev aqr criteria data = .ok v) :
    AdvancedQueryResolver.validate ev aqr criteria data =
      .ok ⟨jsStrictEq v (.bool true), none⟩ ∧
    (jsStrictEq v (.bool true) = true ↔ v = .bool true) :=
  ⟨(AdvancedQueryResolver.validate_eval_cases ev aqr criteria data hpass).2 v hok,
   jsStrictEq_bool_true_iff v⟩

/-- C6 amended witness: instantiated at the template `1` evaluating to the
number `1`. -/
theorem equation_strict_true_amended_witness :
    AdvancedQueryResolver.validate evalOne (AdvancedQueryResolver.make [] "en")
      "1" [] = .ok ⟨jsStrictEq (.num (.finite 1)) (.bool true), none⟩ ∧
    (jsStrictEq (.num (.finite 1)) (.bool true) = true ↔
      (.num (.finite 1) : JsValue) = .bool true) := by
  refine equation_strict_true_amended evalOne (AdvancedQueryResolver.make [] "en")
    "1" [] (.num (.finite 1)) ?_ rfl
  intro id hid
  rw [show extractWordPlaceholders "1" = [] from rfl] at hid
  cases hid

/-- C10: a `\x7b\x7bid\x7d\x7d` placeholder (word characters) whose
identifier is not a configured criterion makes `validate` throw a plain
`Error` from the pre-validation step, which runs outside the fail-closed try
block — the call returns no result. -/
theorem unconfigured_placeholder_throws (ev : Evaluator)
    (aqr : AdvancedQueryResolver) (criteria : String) (data : Record)
    (id : String)
    (hid : id ∈ extractWordPlaceholders criteria)
    (hnone : objGet aqr.criteriaConfigs id = none) :
    ∃ e, AdvancedQueryResolver.validate ev aqr criteria data = .error e ∧
      e.kind = ErrorKind.genericError := by
  have hmem : id ∈ uniqueList (extractWordPlaceholders criteria) :=
    (mem_uniqueList id _).mpr hid
  rcases AdvancedQueryResolver.validateCriteriaListM_error_generic aqr _ data
    ⟨id, hmem, hnone⟩ with ⟨msg, hmsg⟩
  unfold AdvancedQueryResolver.validate AdvancedQueryResolver.validateM
  dsimp only
  rcases hq : AdvancedQueryResolver.validateCriteriaListM aqr
      (uniqueList (extractWordPlaceholders criteria)) data with ⟨rs, d1⟩
  rw [hq] at hmsg
  dsimp only at hmsg
  subst hmsg
  exact ⟨⟨ErrorKind.genericError, msg⟩, rfl, rfl⟩

/-- C10 witness: the placeholder `zz` is not configured in `aqrNoRuleA`, so
`validate` throws. -/
theorem unconfigured_placeholder_throws_witness :
    ∃ e, AdvancedQueryResolver.validate evalUndefGe10 aqrNoRuleA
      "\x7b\x7bzz\x7d\x7d > 1" [] = .error e ∧ e.kind = ErrorKind.genericError :=
  unconfigured_placeholder_throws evalUndefGe10 aqrNoRuleA
    "\x7b\x7bzz\x7d\x7d > 1" [] "zz"
    (by rw [show extractWordPlaceholders "\x7b\x7bzz\x7d\x7d > 1" = ["zz"] from rfl]
        exact List.mem_singleton.mpr rfl)
    rfl

/-- C2 counterexample: the claim says strict number coercion accepts exactly
the optional-minus integer-or-decimal strings, rejecting whitespace, and
leaves the original value unchanged on rejection.  The code instead applies
JS `Number()`: the whitespace string coerces to `0` and the criterion
*passes* the number rule, and a rejected string is replaced by `null`, not
preserved. -/
theorem strict_number_coercion_counterexample :
    AdvancedQueryResolver.validateCriteria aqrNumberTyped "x"
      [("x", .str "  ")] = .ok ⟨"x", true, none⟩ ∧
    jsToNumber (.str "  ") = .finite 0 ∧
    AdvancedQueryResolver.coerceByTypeRule (some [.number]) (.str "abc") = .null :=
  ⟨rfl, rfl, rfl⟩

/-- C2 amended: number coercion (first number/string/boolean type rule) uses
JS `Number()`: `"42"` and `"-3.5"` parse to numbers, the whitespace string
coerces to `0` and is accepted, and any value whose `Number()` image is NaN
is replaced by `null`, so the subsequent `number` type rule reports a normal
number-type validation error for it. -/
theorem strict_number_coercion_amended (v : JsValue)
    (hnan : jsToNumber v = .nan) :
    AdvancedQueryResolver.coerceByTypeRule (some [.number]) (.str "42") =
      .num (.finite (mkRat 42 1)) ∧
    AdvancedQueryResolver.coerceByTypeRule (some [.number]) (.str "-3.5") =
      .num (.finite (mkRat (-7) 2)) ∧
    AdvancedQueryResolver.coerceByTypeRule (some [.number]) (.str "  ") =
      .num (.finite 0) ∧
    AdvancedQueryResolver.coerceByTypeRule (some [.number]) v = .null ∧
    AdvancedQueryResolver.validateCriteria aqrNumberTyped "x" [("x", v)] =
      .ok ⟨"x", false, some [("number", "Criteria x must be a number")]⟩ := by
  refine ⟨rfl, rfl, rfl, ?_, ?_⟩
  · unfold AdvancedQueryResolver.coerceByTypeRule
    dsimp only
    rw [show ([SimpleValidationRule.number].find? (fun r =>
        r.typeName == "number" || r.typeName == "string" || r.typeName == "boolean")) =
        some SimpleValidationRule.number from rfl]
    dsimp only [SimpleValidationRule.typeName]
    rw [hnan]
    rfl
  · unfold AdvancedQueryResolver.validateCriteria
      AdvancedQueryResolver.validateCriteriaM
    rw [show objGet aqrNumberTyped.criteriaConfigs "x" = some numberTypedConfig from rfl]
    dsimp only
    rw [show numberTypedConfig.computeValue = none from rfl]
    dsimp only
    rw [show recordGet [("x", v)] "x" = v from rfl]
    rw [show numberTypedConfig.rules = some [SimpleValidationRule.number] from rfl]
    dsimp only
    rw [show AdvancedQueryResolver.coerceByTypeRule (some [SimpleValidationRule.number]) v =
      (match jsToNumber v with | .nan => JsValue.null | n => JsValue.num n) from rfl]
    rw [hnan]
    rfl

/-- C2 amended witness: instantiated at the string `4a`, whose `Number()`
image is NaN. -/
theorem strict_number_coercion_amended_witness :
    AdvancedQueryResolver.coerceByTypeRule (some [.number]) (.str "42") =
      .num (.finite (mkRat 42 1)) ∧
    AdvancedQueryResolver.coerceByTypeRule (some [.number]) (.str "-3.5") =
      .num (.finite (mkRat (-7) 2)) ∧
    AdvancedQueryResolver.coerceByTypeRule (some [.number]) (.str "  ") =
      .num (.finite 0) ∧
    AdvancedQueryResolver.coerceByTypeRule (some [.number]) (.str "4a") = .null ∧
    AdvancedQueryResolver.validateCriteria aqrNumberTyped "x" [("x", .str "4a")] =
      .ok ⟨"x", false, some [("number", "Criteria x must be a number")]⟩ :=
  strict_number_coercion_amended (.str "4a") rfl

/-- C3 counterexample: registering a duplicate name raises the plain
`Error("Function sum already exists")`, not a `ConfigurationError`. -/
theorem registerFunction_duplicate_counterexample :
    ComputationEngine.registerFunction computationDefaultFunctions "sum"
      stubJsFunction =
      .error ⟨ErrorKind.genericError, "Function sum already exists"⟩ ∧
    ErrorKind.genericError ≠ ErrorKind.configurationError := ⟨rfl, by decide⟩

/-- C3 amended: `ComputationEngine.registerFunction` on a name already
present raises a plain `Error` (not `ConfigurationError`) and produces no new
registry, the presence check being a case-sensitive exact property lookup; a
fresh name is assigned.  `AdvancedQueryResolver.addCustomFunction`, by
contrast, performs no collision check and overwrites the existing binding. -/
theorem registerFunction_duplicate_amended
    (functions : List (String × JsFunction)) (name : String)
    (fn g : JsFunction) (aqr : AdvancedQueryResolver) :
    (objGet functions name = some g →
      ComputationEngine.registerFunction functions name fn =
        .error ⟨ErrorKind.genericError, "Function " ++ name ++ " already exists"⟩) ∧
    (objGet functions name = none →
      ComputationEngine.registerFunction functions name fn =
        .ok (objSet functions name fn)) ∧
    objGet (AdvancedQueryResolver.addCustomFunction aqr name fn).customFunctions
      name = some fn := by
  refine ⟨?_, ?_, ?_⟩
  · intro h
    unfold ComputationEngine.registerFunction
    rw [h]
    rfl
  · intro h
    unfold ComputationEngine.registerFunction
    rw [h]
    rfl
  · unfold AdvancedQueryResolver.addCustomFunction
    dsimp only
    rw [objGet_objSet]
    simp

/-- C3 amended witness: `sum` is a built-in, so re-registering it errors;
`Sum` differs only by case and registers; `addCustomFunction` overwrites the
built-in `empty`. -/
theorem registerFunction_duplicate_amended_witness :
    (ComputationEngine.registerFunction computationDefaultFunctions "sum"
        stubJsFunction =
      .error ⟨ErrorKind.genericError, "Function sum already exists"⟩) ∧
    (ComputationEngine.registerFunction computationDefaultFunctions "Sum"
        stubJsFunction =
      .ok (objSet computationDefaultFunctions "Sum" stubJsFunction)) ∧
    objGet (AdvancedQueryResolver.addCustomFunction
        (AdvancedQueryResolver.make [] "en") "empty"
        stubJsFunction).customFunctions "empty" = some stubJsFunction :=
  ⟨(registerFunction_duplicate_amended computationDefaultFunctions "sum"
      stubJsFunction ceSum (AdvancedQueryResolver.make [] "en")).1 rfl,
   (registerFunction_duplicate_amended computationDefaultFunctions "Sum"
      stubJsFunction ceSum (AdvancedQueryResolver.make [] "en")).2.1 rfl,
   (registerFunction_duplicate_amended [] "empty" stubJsFunction stubJsFunction
      (AdvancedQueryResolver.make [] "en")).2.2⟩

/-- C4 counterexample: a rule kind outside the known set does raise
`ValidationError` inside `validateRule`, but `validateAll`
(`EquationResolver.validateEquation`) returns an ordinary summary with the
criterion failed — the error is recovered locally, not propagated to the
caller. -/
theorem unknown_rule_kind_counterexample :
    ValidationEngine.validateRule (.num (.finite 5)) (.unknownRule "magic") =
      .error ⟨ErrorKind.validationError, "Invalid rule type"⟩ ∧
    EquationResolver.validateEquation unknownRuleResolver
      [("x", .num (.finite 5))] =
      .ok ⟨[], [("x", some [("magic", "Invalid rule type")])], false⟩ :=
  ⟨rfl, rfl⟩

/-- C4 amended: an unknown rule kind raises `ValidationError("Invalid rule
type")` inside `validateRule`, but `ValidationEngine.validateCriteria`
catches it in its per-rule try/catch and records the message as that rule's
error entry, reporting the criterion as failed; `validateAll` therefore
returns a summary instead of propagating the error. -/
theorem unknown_rule_kind_amended (value : JsValue) (tag : String)
    (cfg : ICriteriaValidationConfig) (t : List (String × String)) (d : Record)
    (rules : List SimpleValidationRule)
    (hrules : cfg.rules = some rules)
    (hmem : SimpleValidationRule.unknownRule tag ∈ rules)
    (hcompute : cfg.computeValue = none) :
    ValidationEngine.validateRule value (.unknownRule tag) =
      .error ⟨ErrorKind.validationError, "Invalid rule type"⟩ ∧
    ∃ r, ValidationEngine.validateCriteria cfg t d = .ok r ∧
      r.success = false ∧ r.errors ≠ none :=
  ⟨rfl, ValidationEngine.validateCriteria_unknown_recovered cfg t d tag rules
    hrules hmem hcompute⟩

/-- C4 amended witness: instantiated at `unknownRuleConfig`. -/
theorem unknown_rule_kind_amended_witness :
    ValidationEngine.validateRule (.num (.finite 5)) (.unknownRule "magic") =
      .error ⟨ErrorKind.validationError, "Invalid rule type"⟩ ∧
    ∃ r, ValidationEngine.validateCriteria unknownRuleConfig translationsEn
        [("x", .num (.finite 5))] = .ok r ∧ r.success = false ∧ r.errors ≠ none :=
  unknown_rule_kind_amended (.num (.finite 5)) "magic" unknownRuleConfig
    translationsEn [("x", .num (.finite 5))] [.unknownRule "magic"] rfl
    (List.mem_singleton.mpr rfl) rfl

/-- C5 counterexample: a throwing derivation makes
`EquationResolver.computeValue` fail with `ConfigurationError`, not the
`ComputationError` the claim names. -/
theorem computeValue_error_kind_counterexample :
    EquationResolver.computeValue throwingResolver "a" [] =
      .error ⟨ErrorKind.configurationError,
        "Failed to compute value for criteria a"⟩ ∧
    ErrorKind.configurationError ≠ ErrorKind.computationError := ⟨rfl, by decide⟩

/-- C5 amended: `computeValue` fails with `ConfigurationError` both when the
id is unknown (`Criteria id not found`) and when the derivation throws
(`Failed to compute value for criteria id`); with a configured criterion and
no derivation it returns the record field of that id. -/
theorem computeValue_failure_modes_amended (resolver : EquationResolver)
    (cid : String) (d : Record) :
    (objGet resolver.criteriaConfigs cid = none →
      EquationResolver.computeValue resolver cid d =
        .error ⟨ErrorKind.configurationError,
          "Criteria " ++ cid ++ " not found"⟩) ∧
    (∀ cfg, objGet resolver.criteriaConfigs cid = some cfg →
      cfg.computeValue = none →
      EquationResolver.computeValue resolver cid d = .ok (recordGet d cid)) ∧
    (∀ cfg f e, objGet resolver.criteriaConfigs cid = some cfg →
      cfg.computeValue = some f → f d = .error e →
      EquationResolver.computeValue resolver cid d =
        .error ⟨ErrorKind.configurationError,
          "Failed to compute value for criteria " ++ cid⟩) := by
  refine ⟨?_, ?_, ?_⟩
  · intro h
    unfold EquationResolver.computeValue EquationResolver.computeValueM
    rw [h]
  · intro cfg hc hf
    unfold EquationResolver.computeValue EquationResolver.computeValueM
    rw [hc]
    dsimp only
    rw [hf]
  · intro cfg f e hc hf he
    unfold EquationResolver.computeValue EquationResolver.computeValueM
    rw [hc]
    dsimp only
    rw [hf]
    dsimp only
    rw [he]

/-- C5 amended witness: the unknown id `zz`, the derivation-free criterion
`a` of `plainResolver`, and the throwing derivation of `throwingResolver`. -/
theorem computeValue_failure_modes_amended_witness :
    (EquationResolver.computeValue plainResolver "zz" [] =
      .error ⟨ErrorKind.configurationError, "Criteria zz not found"⟩) ∧
    (EquationResolver.computeValue plainResolver "a" [("a", .num (.finite 7))] =
      .ok (.num (.finite 7))) ∧
    (EquationResolver.computeValue throwingResolver "a" [] =
      .error ⟨ErrorKind.configurationError,
        "Failed to compute value for criteria a"⟩) :=
  ⟨(computeValue_failure_modes_amended plainResolver "zz" []).1 rfl,
   (computeValue_failure_modes_amended plainResolver "a"
      [("a", .num (.finite 7))]).2.1 noRuleConfigA rfl rfl,
   (computeValue_failure_modes_amended throwingResolver "a" []).2.2
      throwingConfig throwingDerivation ⟨ErrorKind.genericError, "boom"⟩
      rfl rfl rfl⟩

/-- C7: a criterion whose rule list is absent or empty is always reported as
a success by `validateAll` (`EquationResolver.validateEquation`): whenever
the call completes with a summary, the criterion's id is among the
`successFields`, regardless of the value of its field. -/
theorem no_rules_always_success (resolver : EquationResolver) (data : Record)
    (summary : IFieldValidationSummary) (cfg : ICriteriaValidationConfig)
    (hok : EquationResolver.validateEquation resolver data = .ok summary)
    (hmem : cfg ∈ resolver.criteriaConfigs.map Prod.snd)
    (hno : cfg.rules = none ∨ cfg.rules = some []) :
    cfg.id ∈ summary.successFields := by
  unfold EquationResolver.validateEquation EquationResolver.validateEquationM at hok
  rcases hq : EquationResolver.validateCriteriaListM resolver.translations
      (resolver.criteriaConfigs.map Prod.snd) data with ⟨rs, d1⟩
  rw [hq] at hok
  dsimp only at hok
  cases rs with
  | error e => cases hok
  | ok results =>
    injection hok with hok
    subst hok
    have hmemres :=
      EquationResolver.validateCriteriaListM_mem_no_rules resolver.translations
        (resolver.criteriaConfigs.map Prod.snd) data results cfg
        (by rw [hq]) hmem hno
    dsimp only
    exact List.mem_map.mpr
      ⟨⟨cfg.id, true, none⟩,
       List.mem_filter.mpr ⟨hmemres, rfl⟩, rfl⟩

/-- C7 witness: in `plainResolver` the rule-less criterion `a` is reported
successful on the empty record. -/
theorem no_rules_always_success_witness :
    "a" ∈ (IFieldValidationSummary.mk ["a"] [] true).successFields :=
  no_rules_always_success plainResolver [] ⟨["a"], [], true⟩ noRuleConfigA rfl
    (List.mem_singleton.mpr rfl) (Or.inl rfl)

/-- C8: both engine constructors build their criteria map with
`new Map(configs.map(c => [c.id, c]))`, so when several configs share an id
the last one wins every later lookup, and the constructed map holds each id
at most once. -/
theorem criteria_map_last_wins_unique
    (configs : List ICriteriaValidationConfig) (language : String) (id : String)
    (customs : Option (List (String × JsFunction))) :
    (objGet (AdvancedQueryResolver.make configs language).criteriaConfigs id =
      lastConfigWithId configs id) ∧
    (((AdvancedQueryResolver.make configs language).criteriaConfigs.map
        Prod.fst).Nodup) ∧
    (∀ er, EquationResolver.make configs language customs = .ok er →
      objGet er.criteriaConfigs id = lastConfigWithId configs id ∧
        (er.criteriaConfigs.map Prod.fst).Nodup) := by
  have part1 : objGet (buildCriteriaMap (fun c => c.id) configs) id =
      lastConfigWithId configs id := by
    unfold buildCriteriaMap lastConfigWithId
    simpa [objGet] using objGet_foldl_objSet (fun c => c.id) configs id []
  have part2 : ((buildCriteriaMap (fun c => c.id) configs).map Prod.fst).Nodup := by
    unfold buildCriteriaMap
    exact nodupKeys_foldl_objSet (fun c => c.id) configs [] (by simp)
  refine ⟨part1, part2, ?_⟩
  intro er hmk
  unfold EquationResolver.make at hmk
  rcases hr : EquationResolver.registerAll computationDefaultFunctions customs with
    e | fns
  · rw [hr] at hmk
    cases hmk
  · rw [hr] at hmk
    dsimp only at hmk
    injection hmk with hmk
    subst hmk
    exact ⟨part1, part2⟩

/-- C8 witness: with two configs sharing the id `a`, both constructors keep
only the second. -/
theorem criteria_map_last_wins_unique_witness :
    objGet (AdvancedQueryResolver.make [dupConfigA1, dupConfigA2]
      "en").criteriaConfigs "a" = some dupConfigA2 ∧
    objGet dupResolverER.criteriaConfigs "a" = some dupConfigA2 ∧
    (dupResolverER.criteriaConfigs.map Prod.fst).Nodup := by
  have h := criteria_map_last_wins_unique [dupConfigA1, dupConfigA2] "en" "a" none
  have h3 := h.2.2 dupResolverER rfl
  exact ⟨h.1, h3.1, h3.2⟩

/-- C9: no evaluation operation writes to the caller record: in the
state-passing embedding — where every record access returns the record it
was handed, and caller-supplied derivations and validators are pure
functions of it — `validate`, `validateAllFields`, `validateEquation`,
`computeValue`, the computation-engine evaluation and the sandbox-context
construction all return the record unchanged. -/
theorem engine_preserves_record (ev : Evaluator)
    (aqr : AdvancedQueryResolver) (resolver : EquationResolver)
    (functions : List (String × JsFunction))
    (criteria cid expr : String) (data : Record) :
    (AdvancedQueryResolver.validateM ev aqr criteria data).2 = data ∧
    (AdvancedQueryResolver.validateAllFieldsM aqr data).2 = data ∧
    (EquationResolver.validateEquationM resolver data).2 = data ∧
    (EquationResolver.computeValueM resolver cid data).2 = data ∧
    (ComputationEngine.computeValueM ev functions expr data).2 = data ∧
    (AdvancedQueryResolver.createSandboxContextM aqr data).2 = data :=
  ⟨AdvancedQueryResolver.validateM_snd ev aqr criteria data,
   AdvancedQueryResolver.validateAllFieldsM_snd aqr data,
   EquationResolver.validateEquationM_snd resolver data,
   erComputeValueM_snd resolver cid data,
   ceComputeValueM_snd ev functions expr data,
   AdvancedQueryResolver.createSandboxContextM_snd aqr data⟩
